import Mathlib

/-!
Verification of the core algorithms of the Moon Artifact Explorer
(`src/main.js`): the procedural elevation field, geographic projection,
label placement, and trajectory synthesis.  All JavaScript numbers are
modelled as real numbers; `Math.random()` calls are modelled as explicit
real parameters; the global `window.elevationData` handle is modelled as
an `Option Grid` argument.
-/

open Real

open scoped Classical

noncomputable section

namespace Moon

/-! ## Vectors (THREE.Vector3) -/

/-- A 3D vector, modelling `THREE.Vector3`. -/
structure Vec3 where
  x : ℝ
  y : ℝ
  z : ℝ
deriving DecidableEq

/-- Componentwise sum, modelling `Vector3.add`. -/
def vadd (a b : Vec3) : Vec3 := ⟨a.x + b.x, a.y + b.y, a.z + b.z⟩

/-- Scalar multiple, modelling `Vector3.multiplyScalar`. -/
def vsmul (c : ℝ) (a : Vec3) : Vec3 := ⟨c * a.x, c * a.y, c * a.z⟩

/-- Euclidean length, modelling `Vector3.length()`. -/
def vlen (a : Vec3) : ℝ := Real.sqrt (a.x * a.x + a.y * a.y + a.z * a.z)

/-- Distance between two vectors, modelling `Vector3.distanceTo`. -/
def vdist (a b : Vec3) : ℝ :=
  Real.sqrt ((a.x - b.x) * (a.x - b.x) + (a.y - b.y) * (a.y - b.y) + (a.z - b.z) * (a.z - b.z))

/-- Normalization, modelling `Vector3.normalize()`, which divides by
`this.length() || 1`: the zero vector (length `0`, falsy) is divided by 1,
i.e. left unchanged. -/
def vnormalize (a : Vec3) : Vec3 := if vlen a = 0 then a else vsmul (1 / vlen a) a

/-! ## JavaScript `Math.atan2`

`Math.atan2(y, x)` returns the angle of the point `(x, y)` in `(-π, π]`,
with `atan2(0, 0) = 0` (real numbers carry no signed zero). -/

/-- JavaScript `Math.atan2 (y, x)`. -/
def atan2 (y x : ℝ) : ℝ :=
  if 0 < x then Real.arctan (y / x)
  else if x < 0 then
    (if 0 ≤ y then Real.arctan (y / x) + π else Real.arctan (y / x) - π)
  else (if 0 < y then π / 2 else if y < 0 then -(π / 2) else 0)

/-! ## Constants and utility functions (`src/main.js` lines 8–9, 868–893) -/

def MOON_RADIUS : ℝ := 200

def MOON_RADIUS_KM : ℝ := 1737.4

/-- Embedding of `latLonToVector3(lat, lon, radius)` (main.js:868). -/
def latLonToVector3 (lat lon radius : ℝ) : Vec3 :=
  let phi := (90 - lat) * (π / 180)
  let theta := (lon + 180) * (π / 180)
  ⟨-radius * Real.sin phi * Real.cos theta,
    radius * Real.cos phi,
    radius * Real.sin phi * Real.sin theta⟩

/-- The intermediate quantity `a` of `haversine` (main.js:882–884):
`sin²(dLat/2) + cos(lat1)·cos(lat2)·sin²(dLon/2)` in radians. -/
def havA (lat1 lon1 lat2 lon2 : ℝ) : ℝ :=
  Real.sin ((lat2 - lat1) * π / 180 / 2) * Real.sin ((lat2 - lat1) * π / 180 / 2) +
    Real.cos (lat1 * π / 180) * Real.cos (lat2 * π / 180) *
      Real.sin ((lon2 - lon1) * π / 180 / 2) * Real.sin ((lon2 - lon1) * π / 180 / 2)

/-- Embedding of `haversine(lat1, lon1, lat2, lon2)` (main.js:879),
returning degrees: `2·atan2(√a, √(1−a))·180/π`. -/
def haversine (lat1 lon1 lat2 lon2 : ℝ) : ℝ :=
  2 * atan2 (Real.sqrt (havA lat1 lon1 lat2 lon2)) (Real.sqrt (1 - havA lat1 lon1 lat2 lon2)) *
    180 / π

/-- Embedding of `simplex2D(x, y)` (main.js:889): a sine-based hash,
`n = sin(x·12.9898 + y·78.233)·43758.5453` with fractional part taken. -/
def simplex2D (x y : ℝ) : ℝ :=
  let n := Real.sin (x * 12.9898 + y * 78.233) * 43758.5453
  n - ↑⌊n⌋

/-! ## Elevation field (`generateElevation`, `getElevationAt`, main.js 376–461) -/

/-- A mare or crater catalog record: `{name, lat, lon, size}`. -/
structure Feature where
  name : String
  lat : ℝ
  lon : ℝ
  size : ℝ

/-- One mare's subtraction from the elevation at `(lat, lon)`
(main.js:399–406): inside the angular radius `size/2/57.3` the depression
grows quadratically toward the center. -/
def mareDepth (lat lon : ℝ) (m : Feature) : ℝ :=
  let d := haversine lat lon m.lat m.lon
  let mareR := m.size / 2 / 57.3
  if d < mareR then 4.0 * (1 - d / mareR) * (1 - d / mareR) else 0

/-- One crater's signed contribution to the elevation at `(lat, lon)`
(main.js:409–425): a Gaussian rim uplift in the band `(0.7R, 1.3R)` and a
linearly deepening floor inside `0.7R`, active within `2R`. -/
def craterRelief (lat lon : ℝ) (c : Feature) : ℝ :=
  let d := haversine lat lon c.lat c.lon
  let craterR := c.size / 2 / 111
  if d < craterR * 2 then
    if craterR * 0.7 < d ∧ d < craterR * 1.3 then
      c.size * 0.02 / 1000 * Real.exp (-(((d - craterR) / (craterR * 0.3)) ^ 2))
    else if d < craterR * 0.7 then
      -(c.size * 0.1 / 1000 * (1 - d / (craterR * 0.7)))
    else 0
  else 0

/-- The raw (pre-clamp) elevation at `(lat, lon)` computed by the body of
the `generateElevation` loops (main.js:386–428): base highlands, far-side
highlands, polar uplift, maria depressions, crater relief, and noise. -/
def elevRaw (maria craters : List Feature) (lat lon : ℝ) : ℝ :=
  let e0 : ℝ := 2.0
  let e1 := if 90 < |lon| then e0 + (2.5 + simplex2D (lat * 0.02) (lon * 0.02) * 1.5) else e0
  let e2 := if 60 < |lat| then e1 + (|lat| - 60) / 30 * 2.5 else e1
  let e3 := e2 - (maria.map (fun m => mareDepth lat lon m)).sum
  let e4 := e3 + (craters.map (fun c => craterRelief lat lon c)).sum
  e4 + (simplex2D (lat * 0.05) (lon * 0.05) - 0.5) * 0.5

/-- An elevation grid: `res` rows (`data.length` in the source) of
`2·res` columns of stored scalars; `val i j` is `data[i][j]`. -/
structure Grid where
  res : ℕ
  val : ℕ → ℕ → ℝ

/-- The latitude of grid row `i` (main.js:383), `res = 72`. -/
def latOfRow (i : ℕ) : ℝ := (i : ℝ) / (72 - 1) * 180 - 90

/-- The longitude of grid column `j` (main.js:384), `res = 72`. -/
def lonOfCol (j : ℕ) : ℝ := (j : ℝ) / (72 * 2 - 1) * 360 - 180

/-- Embedding of `generateElevation()` (main.js:376): a 72 × 144 grid whose
cell `(i, j)` stores the clamped raw elevation at the cell's coordinates,
scaled by `MOON_RADIUS / MOON_RADIUS_KM` (main.js:430). -/
def generateElevation (maria craters : List Feature) : Grid :=
  ⟨72, fun i j =>
    max (-8) (min 10 (elevRaw maria craters (latOfRow i) (lonOfCol j))) *
      (MOON_RADIUS / MOON_RADIUS_KM)⟩

/-- The fixed point of the two `while` loops of `getElevationAt`
(main.js:441–442): add 360 while below −180, then subtract 360 while
above 180.  Each loop runs a minimal whole number of steps, giving the
closed forms with `⌈·⌉`. -/
def wrapLon (lon : ℝ) : ℝ :=
  let l1 := if lon < -180 then lon + 360 * ↑⌈(-180 - lon) / 360⌉ else lon
  if 180 < l1 then l1 - 360 * ↑⌈(l1 - 180) / 360⌉ else l1

/-- The fractional row index `fi` of `getElevationAt` (main.js:444). -/
def gridFi (g : Grid) (lat : ℝ) : ℝ := (lat + 90) / 180 * ((g.res : ℝ) - 1)

/-- The fractional column index `fj` of `getElevationAt` (main.js:445),
after the wrapping loops. -/
def gridFj (g : Grid) (lon : ℝ) : ℝ := (wrapLon lon + 180) / 360 * ((g.res : ℝ) * 2 - 1)

/-- The clamped floor row index `i0` (main.js:447). -/
def gridI0 (g : Grid) (lat : ℝ) : ℤ := max 0 (min ((g.res : ℤ) - 1) ⌊gridFi g lat⌋)

/-- The clamped floor column index `j0` (main.js:448). -/
def gridJ0 (g : Grid) (lon : ℝ) : ℤ := max 0 (min (2 * (g.res : ℤ) - 1) ⌊gridFj g lon⌋)

/-- The clamped next row index `i1` (main.js:449). -/
def gridI1 (g : Grid) (lat : ℝ) : ℤ := min ((g.res : ℤ) - 1) (gridI0 g lat + 1)

/-- The clamped next column index `j1` (main.js:450). -/
def gridJ1 (g : Grid) (lon : ℝ) : ℤ := min (2 * (g.res : ℤ) - 1) (gridJ0 g lon + 1)

/-- The bilinear interpolation body of `getElevationAt` (main.js:440–460):
fractional weights `fx`, `fy` and the four-corner weighted sum. -/
def sampleGrid (g : Grid) (lat lon : ℝ) : ℝ :=
  (1 - (gridFi g lat - (gridI0 g lat : ℝ))) * (1 - (gridFj g lon - (gridJ0 g lon : ℝ))) *
      g.val (gridI0 g lat).toNat (gridJ0 g lon).toNat +
    (gridFi g lat - (gridI0 g lat : ℝ)) * (1 - (gridFj g lon - (gridJ0 g lon : ℝ))) *
      g.val (gridI1 g lat).toNat (gridJ0 g lon).toNat +
    (1 - (gridFi g lat - (gridI0 g lat : ℝ))) * (gridFj g lon - (gridJ0 g lon : ℝ)) *
      g.val (gridI0 g lat).toNat (gridJ1 g lon).toNat +
    (gridFi g lat - (gridI0 g lat : ℝ)) * (gridFj g lon - (gridJ0 g lon : ℝ)) *
      g.val (gridI1 g lat).toNat (gridJ1 g lon).toNat

/-- Embedding of `getElevationAt(lat, lon, data)` (main.js:437): returns 0
for a missing grid (`if (!data) return 0`), otherwise bilinearly
interpolates the four surrounding cells. -/
def getElevationAt (lat lon : ℝ) (data : Option Grid) : ℝ :=
  match data with
  | none => 0
  | some g => sampleGrid g lat lon

/-! ## Static catalogs (main.js 2422–2456) -/

def CRATERS : List Feature :=
  [⟨"Tycho", -43.31, -11.36, 85⟩,
   ⟨"Copernicus", 9.62, -20.08, 93⟩,
   ⟨"Kepler", 8.12, -38.01, 32⟩,
   ⟨"Aristarchus", 23.73, -47.49, 40⟩,
   ⟨"Plato", 51.62, -9.38, 101⟩,
   ⟨"Archimedes", 29.72, -4.04, 83⟩,
   ⟨"Eratosthenes", 14.47, -11.32, 59⟩,
   ⟨"Ptolemaeus", -9.2, -1.8, 154⟩,
   ⟨"Alphonsus", -13.39, -2.78, 118⟩,
   ⟨"Arzachel", -18.19, -1.88, 97⟩,
   ⟨"Clavius", -58.4, -14.4, 231⟩,
   ⟨"Grimaldi", -5.2, -68.6, 172⟩,
   ⟨"Schickard", -44.4, -54.6, 227⟩,
   ⟨"Theophilus", -11.4, 26.4, 100⟩,
   ⟨"Langrenus", -8.9, 60.9, 132⟩,
   ⟨"Petavius", -25.3, 60.4, 177⟩,
   ⟨"Humboldt", -27.0, 80.9, 207⟩,
   ⟨"Janssen", -45.0, 40.0, 190⟩]

def MARIA : List Feature :=
  [⟨"Mare Tranquillitatis", 8.5, 31.4, 873⟩,
   ⟨"Mare Serenitatis", 28.0, 17.5, 707⟩,
   ⟨"Mare Crisium", 17.0, 59.1, 418⟩,
   ⟨"Mare Imbrium", 32.8, -15.6, 1145⟩,
   ⟨"Oceanus Procellarum", 18.4, -57.4, 2568⟩,
   ⟨"Mare Nubium", -21.3, -16.6, 715⟩,
   ⟨"Mare Humorum", -24.4, -38.6, 389⟩,
   ⟨"Mare Fecunditatis", -7.8, 51.3, 909⟩,
   ⟨"Mare Nectaris", -15.2, 35.5, 333⟩,
   ⟨"Mare Frigoris", 56.0, 1.4, 1596⟩,
   ⟨"Mare Vaporum", 13.3, 3.6, 245⟩,
   ⟨"Sinus Medii", 2.4, -1.0, 335⟩]

/-- The grid the application stores in `window.elevationData`. -/
def moonGrid : Grid := generateElevation MARIA CRATERS

/-! ## Label placement (`findLabelPosition`, main.js 561–602) -/

/-- The fixed priority-ordered candidate offsets (main.js:562–571): above,
upper right, upper left, higher above, far right, far left, even higher,
high right. -/
def labelOffsets : List Vec3 :=
  [⟨0, 12, 0⟩, ⟨15, 8, 0⟩, ⟨-15, 8, 0⟩, ⟨0, 20, 0⟩,
   ⟨20, 12, 0⟩, ⟨-20, 12, 0⟩, ⟨0, 28, 0⟩, ⟨15, 20, 0⟩]

/-- The inner check of `findLabelPosition` (main.js:583–589): a test
position is clear when no existing position is strictly within the
minimum distance 30. -/
def isClearPos (t : Vec3) (existing : List Vec3) : Prop :=
  ∀ q ∈ existing, ¬ (vdist t q < 30)

/-- The candidate loop of `findLabelPosition` (main.js:575–594): walk the
offsets in priority order, returning the first clear test position, or
`none` when the loop falls through. -/
def firstClearOffset (basePos : Vec3) (existing : List Vec3) : List Vec3 → Option Vec3
  | [] => none
  | o :: os =>
    let testPos : Vec3 := ⟨basePos.x + o.x, basePos.y + o.y, basePos.z + o.z⟩
    if isClearPos testPos existing then some testPos else firstClearOffset basePos existing os

/-- Embedding of `findLabelPosition(basePos, existingPositions)`
(main.js:561): the three `Math.random()` calls of the fallback branch
(main.js:597–601) are modelled as the explicit parameters `r1 r2 r3`. -/
def findLabelPosition (r1 r2 r3 : ℝ) (basePos : Vec3) (existing : List Vec3) : Vec3 :=
  match firstClearOffset basePos existing labelOffsets with
  | some p => p
  | none =>
    ⟨basePos.x + (r1 - 0.5) * 40, basePos.y + 12 + r2 * 20, basePos.z + (r3 - 0.5) * 40⟩

/-- State-passing reading of `findLabelPosition`: the source body never
assigns to `basePos` or `existingPositions` or its elements, so the
procedure's translation returns the result together with the final values
of both arguments, which are the ones passed in. -/
def findLabelPositionProc (r1 r2 r3 : ℝ) (basePos : Vec3) (existing : List Vec3) :
    Vec3 × Vec3 × List Vec3 :=
  (findLabelPosition r1 r2 r3 basePos existing, basePos, existing)

/-! ## Substring test (`String.prototype.includes`) -/

/-- Whether `sub` occurs at the head of `l`. -/
def matchesAt : List Char → List Char → Bool
  | [], _ => true
  | _ :: _, [] => false
  | a :: sub, b :: l => a == b && matchesAt sub l

/-- Whether `sub` occurs contiguously anywhere in the second list. -/
def containsSeq (sub : List Char) : List Char → Bool
  | [] => matchesAt sub []
  | b :: l => matchesAt sub (b :: l) || containsSeq sub l

/-- JavaScript `s.includes(sub)`. -/
def strIncludes (s sub : String) : Bool := containsSeq sub.toList s.toList

/-- JavaScript `toLowerCase()` (all status/type strings in the catalogs
are ASCII): lower-case every character. -/
def strToLower (s : String) : String := ⟨s.data.map Char.toLower⟩

/-! ## Trajectory synthesis (`showTrajectory`, main.js 1383–1581) -/

/-- A mission record: the fields of an artifact that `showTrajectory`
reads. -/
structure Artifact where
  lat : ℝ
  lon : ℝ
  status : String
  type : String

/-- The fixed Earth reference point (main.js:1392–1393):
`(MOON_RADIUS·3, 0, 0)`. -/
def earthPosition : Vec3 := ⟨MOON_RADIUS * 3, 0, 0⟩

/-- The elevation sampled at the landing site (main.js:1414):
`window.elevationData ? getElevationAt(lat, lon, data) : 0`; the `none`
case of `getElevationAt` returns 0 either way. -/
def landingElev (a : Artifact) (data : Option Grid) : ℝ :=
  getElevationAt a.lat a.lon data

/-- The landing position (main.js:1415):
`latLonToVector3(lat, lon, MOON_RADIUS + elev·2)`. -/
def landingPos (a : Artifact) (data : Option Grid) : Vec3 :=
  latLonToVector3 a.lat a.lon (MOON_RADIUS + landingElev a data * 2)

/-- `status === 'orbiting'` after `toLowerCase()` (main.js:1418,1421). -/
def isCurrentlyOrbiting (a : Artifact) : Prop := strToLower a.status = "orbiting"

/-- `type.includes('orbit')` after `toLowerCase()` (main.js:1419–1420). -/
def isOrbiter (a : Artifact) : Prop := strIncludes (strToLower a.type) "orbit" = true

/-- One point of the steady-orbit loop (main.js:1443–1449). -/
def orbitLoopPoint (i : ℕ) : Vec3 :=
  let angle := (i : ℝ) / 100 * π * 2
  let orbitRadius := MOON_RADIUS + 80
  ⟨Real.cos angle * orbitRadius, Real.sin angle * orbitRadius * 0.7, Real.sin (angle * 2) * 20⟩

/-- The closed loop for `status == "orbiting"` (main.js:1441–1450):
`segments + 1 = 101` points. -/
def orbitLoopPoints : List Vec3 := (List.range 101).map orbitLoopPoint

/-- Quadratic Bézier point (the componentwise formula of
main.js:1480–1488 and 1570–1578). -/
def quadBezier (p0 c p1 : Vec3) (t : ℝ) : Vec3 :=
  ⟨(1 - t) ^ 2 * p0.x + 2 * (1 - t) * t * c.x + t ^ 2 * p1.x,
   (1 - t) ^ 2 * p0.y + 2 * (1 - t) * t * c.y + t ^ 2 * p1.y,
   (1 - t) ^ 2 * p0.z + 2 * (1 - t) * t * c.z + t ^ 2 * p1.z⟩

/-- `landingPhi` (main.js:1458). -/
def landingPhi (a : Artifact) : ℝ := (90 - a.lat) * (π / 180)

/-- `landingTheta` (main.js:1459). -/
def landingTheta (a : Artifact) : ℝ := (a.lon + 180) * (π / 180)

/-- The orbit-insertion point on the far side (main.js:1463–1469). -/
def orbitInsertionPoint (a : Artifact) : Vec3 :=
  let insertionAngle := landingTheta a + π
  let orbitRadius := MOON_RADIUS + 80
  ⟨-Real.sin (landingPhi a) * Real.cos insertionAngle * orbitRadius,
    Real.cos (landingPhi a) * orbitRadius,
    Real.sin (landingPhi a) * Real.sin insertionAngle * orbitRadius⟩

/-- The control point of the approach Bézier (main.js:1471–1476). -/
def approachControl (a : Artifact) : Vec3 :=
  ⟨(earthPosition.x + (orbitInsertionPoint a).x) / 2,
    MOON_RADIUS * 2,
    (earthPosition.z + (orbitInsertionPoint a).z) / 2⟩

/-- The approach segment (main.js:1478–1490): 26 Bézier points from the
Earth point to the insertion point. -/
def approachPoints (a : Artifact) : List Vec3 :=
  (List.range 26).map fun i : ℕ =>
    quadBezier earthPosition (approachControl a) (orbitInsertionPoint a) ((i : ℝ) / 25)

/-- `startAngle` (main.js:1494). -/
def startAngle (a : Artifact) : ℝ :=
  atan2 (orbitInsertionPoint a).z (orbitInsertionPoint a).x

/-- `endAngle` (main.js:1495). -/
def endAngle (a : Artifact) : ℝ := landingTheta a - π / 2

/-- The span normalization (main.js:1496–1505): add 2π while negative,
subtract 2π while above 2π (each loop a minimal whole number of steps,
giving the `⌈·⌉` closed forms), then subtract 2π once if above π. -/
def normalizeSpan (s : ℝ) : ℝ :=
  let s1 := if s < 0 then s + π * 2 * ↑⌈(-s) / (π * 2)⌉ else s
  let s2 := if π * 2 < s1 then s1 - π * 2 * ↑⌈(s1 - π * 2) / (π * 2)⌉ else s1
  if π < s2 then s2 - π * 2 else s2

/-- `angleSpan` after normalization (main.js:1496–1505). -/
def angleSpan (a : Artifact) : ℝ := normalizeSpan (endAngle a - startAngle a)

/-- One point of the orbital phase (main.js:1507–1518). -/
def orbitPointAt (a : Artifact) (i : ℕ) : Vec3 :=
  let t := (i : ℝ) / 35
  let angle := startAngle a + angleSpan a * t
  let orbitPhi := landingPhi a + (π / 2 - landingPhi a) * (1 - t)
  let orbitRadius := MOON_RADIUS + 80
  ⟨-Real.sin orbitPhi * Real.cos angle * orbitRadius,
    Real.cos orbitPhi * orbitRadius,
    Real.sin orbitPhi * Real.sin angle * orbitRadius⟩

/-- The orbital phase (main.js:1507–1518): 36 points. -/
def orbitPoints (a : Artifact) : List Vec3 := (List.range 36).map (orbitPointAt a)

/-- `curvePoints[curvePoints.length - 1]` as read by the descent loop
(main.js:1521): the last orbital point, at `t = 1`. -/
def lastOrbitPoint (a : Artifact) : Vec3 := orbitPointAt a 35

/-- The unprojected latitude of a point: `asin(y/r)·180/π`, the formula
shared by `createTerrain` (main.js:290) and the descent safety check
(main.js:1546). -/
def unprojLat (p : Vec3) : ℝ := Real.arcsin (p.y / vlen p) * (180 / π)

/-- The unprojected longitude of a point: `atan2(x, z)·180/π`, the formula
shared by `createTerrain` (main.js:291) and the descent safety check
(main.js:1547). -/
def unprojLon (p : Vec3) : ℝ := atan2 p.x p.z * (180 / π)

/-- The elevation term of the descent safety check (main.js:1544–1549):
sample the grid at the point's unprojected coordinates and double it; a
missing grid yields 0. -/
def surfaceElevAt (data : Option Grid) (p : Vec3) : ℝ :=
  getElevationAt (unprojLat p) (unprojLon p) data * 2

/-- The minimum admissible distance from center at `p` (main.js:1550):
`MOON_RADIUS + surfaceElev + 3`. -/
def minRadiusAt (data : Option Grid) (p : Vec3) : ℝ :=
  MOON_RADIUS + surfaceElevAt data p + 3

/-- The linearly interpolated base position of one descent point
(main.js:1528–1531). -/
def descentBase (lastOrbit landing : Vec3) (t : ℝ) : Vec3 :=
  ⟨lastOrbit.x + (landing.x - lastOrbit.x) * t,
   lastOrbit.y + (landing.y - lastOrbit.y) * t,
   lastOrbit.z + (landing.z - lastOrbit.z) * t⟩

/-- The base position pushed radially outward by the parabolic bulge
`4t(1−t)·30` (main.js:1533–1540). -/
def descentBulged (lastOrbit landing : Vec3) (t : ℝ) : Vec3 :=
  vadd (descentBase lastOrbit landing t)
    (vsmul (4 * t * (1 - t) * 30) (vnormalize (descentBase lastOrbit landing t)))

/-- One descent point (main.js:1525–1556): the bulged position, with the
hard safety clamp projecting radially out to the minimum radius
(main.js:1542–1554). -/
def descentPointAt (lastOrbit landing : Vec3) (data : Option Grid) (i : ℕ) : Vec3 :=
  let p := descentBulged lastOrbit landing ((i : ℝ) / 40)
  if vlen p < minRadiusAt data p then vsmul (minRadiusAt data p) (vnormalize p) else p

/-- The descent segment (main.js:1525–1557): points `i = 1 … 40`. -/
def descentPart (a : Artifact) (data : Option Grid) : List Vec3 :=
  (List.range 40).map fun k => descentPointAt (lastOrbitPoint a) (landingPos a data) data (k + 1)

/-- The control point of the direct arc (main.js:1560–1565). -/
def directControl (a : Artifact) (data : Option Grid) : Vec3 :=
  ⟨(earthPosition.x + (landingPos a data).x) / 2,
    MOON_RADIUS * 2,
    (earthPosition.z + (landingPos a data).z) / 2⟩

/-- The direct-arc segment (main.js:1567–1580): 101 Bézier points from the
Earth point to the landing point. -/
def directArcPoints (a : Artifact) (data : Option Grid) : List Vec3 :=
  (List.range 101).map fun i : ℕ =>
    quadBezier earthPosition (directControl a data) (landingPos a data) ((i : ℝ) / 100)

/-- The full `curvePoints` sequence built by `showTrajectory`
(main.js:1437–1581), branching on the derived mission profile. -/
def buildTrajectory (a : Artifact) (data : Option Grid) : List Vec3 :=
  if isCurrentlyOrbiting a then orbitLoopPoints
  else if isOrbiter a then approachPoints a ++ orbitPoints a ++ descentPart a data
  else directArcPoints a data

/-! ## Auxiliary definitions for the statements -/

/-- The elevation-sample range every consumer may assume: the stored
values are clamped to `[-8, 10]` physical km and scaled by
`MOON_RADIUS / MOON_RADIUS_KM` (main.js:430), and bilinear sampling stays
inside the stored range for in-range latitude. -/
def SampleBounded (data : Option Grid) : Prop :=
  ∀ lat lon : ℝ, -90 ≤ lat → lat ≤ 90 →
    -(8 * (MOON_RADIUS / MOON_RADIUS_KM)) ≤ getElevationAt lat lon data ∧
      getElevationAt lat lon data ≤ 10 * (MOON_RADIUS / MOON_RADIUS_KM)

/-- An all-zero 72 × 144 grid, for comparing against the missing-grid
fallback. -/
def zeroGrid : Grid := ⟨72, fun _ _ => 0⟩

/-- A steadily orbiting mission, for instantiating the orbit-loop
theorems. -/
def aOrbiting : Artifact := ⟨10, 20, "Orbiting", "Orbiter"⟩

/-- A direct-landing mission at the origin of coordinates. -/
def aDirect : Artifact := ⟨0, 0, "Landed", "Lander"⟩

/-- An orbit-then-descend mission at the origin of coordinates. -/
def aDescent : Artifact := ⟨0, 0, "Landed", "Orbiter"⟩

/-- A degenerate catalog record with non-positive size. -/
def badFeature : Feature := ⟨"Degenerate", 0, 0, 0⟩

end Moon

namespace Moon

/-! ## Basic facts about longitude wrapping and grid sampling -/

theorem wrapLon_eq_self {lon : ℝ} (h1 : -180 ≤ lon) (h2 : lon ≤ 180) :
    wrapLon lon = lon := by
  unfold wrapLon
  simp only [if_neg (not_lt.mpr h1)]
  exact if_neg (not_lt.mpr h2)

theorem wrapLon_mem (lon : ℝ) : -180 ≤ wrapLon lon ∧ wrapLon lon ≤ 180 := by
  unfold wrapLon
  by_cases h : lon < -180
  · simp only [if_pos h]
    have h1 : (-180 - lon) / 360 ≤ (⌈(-180 - lon) / 360⌉ : ℝ) := Int.le_ceil _
    have h2 : (⌈(-180 - lon) / 360⌉ : ℝ) < (-180 - lon) / 360 + 1 := Int.ceil_lt_add_one _
    have h3 : -180 - lon ≤ (⌈(-180 - lon) / 360⌉ : ℝ) * 360 :=
      (div_le_iff₀ (by norm_num : (0:ℝ) < 360)).mp h1
    have h4 : ((⌈(-180 - lon) / 360⌉ : ℝ) - 1) * 360 < -180 - lon := by
      rw [← lt_div_iff₀ (by norm_num : (0:ℝ) < 360)]
      linarith
    have hge : -180 ≤ lon + 360 * (⌈(-180 - lon) / 360⌉ : ℝ) := by linarith
    have hlt : lon + 360 * (⌈(-180 - lon) / 360⌉ : ℝ) ≤ 180 := by linarith
    rw [if_neg (not_lt.mpr hlt)]
    exact ⟨hge, hlt⟩
  · simp only [if_neg h]
    push_neg at h
    by_cases h2 : 180 < lon
    · simp only [if_pos h2]
      have h3 : (lon - 180) / 360 ≤ (⌈(lon - 180) / 360⌉ : ℝ) := Int.le_ceil _
      have h4 : (⌈(lon - 180) / 360⌉ : ℝ) < (lon - 180) / 360 + 1 := Int.ceil_lt_add_one _
      have h5 : lon - 180 ≤ (⌈(lon - 180) / 360⌉ : ℝ) * 360 :=
        (div_le_iff₀ (by norm_num : (0:ℝ) < 360)).mp h3
      have h6 : ((⌈(lon - 180) / 360⌉ : ℝ) - 1) * 360 < lon - 180 := by
        rw [← lt_div_iff₀ (by norm_num : (0:ℝ) < 360)]
        linarith
      constructor
      · linarith
      · linarith
    · simp only [if_neg h2]
      push_neg at h2
      exact ⟨h, h2⟩

theorem lonOfCol_mem {j : ℕ} (hj : j < 144) : -180 ≤ lonOfCol j ∧ lonOfCol j ≤ 180 := by
  have hj143 : (j : ℝ) ≤ 143 := by exact_mod_cast Nat.lt_succ_iff.mp hj
  have h0 : (0:ℝ) ≤ (j : ℝ) := Nat.cast_nonneg j
  unfold lonOfCol
  norm_num
  constructor
  · nlinarith
  · nlinarith

theorem gridFi_cell (g : Grid) (hres : g.res = 72) (i : ℕ) :
    gridFi g (latOfRow i) = (i : ℝ) := by
  unfold gridFi latOfRow
  rw [hres]
  push_cast
  ring

theorem gridFj_cell (g : Grid) (hres : g.res = 72) (j : ℕ) (hj : j < 144) :
    gridFj g (lonOfCol j) = (j : ℝ) := by
  unfold gridFj
  rw [wrapLon_eq_self (lonOfCol_mem hj).1 (lonOfCol_mem hj).2, hres]
  unfold lonOfCol
  push_cast
  ring

theorem gridI0_cell (g : Grid) (hres : g.res = 72) (i : ℕ) (hi : i < 72) :
    gridI0 g (latOfRow i) = (i : ℤ) := by
  unfold gridI0
  rw [gridFi_cell g hres i, hres, Int.floor_natCast]
  have : (i : ℤ) ≤ ((72:ℕ) : ℤ) - 1 := by omega
  omega

theorem gridJ0_cell (g : Grid) (hres : g.res = 72) (j : ℕ) (hj : j < 144) :
    gridJ0 g (lonOfCol j) = (j : ℤ) := by
  unfold gridJ0
  rw [gridFj_cell g hres j hj, hres, Int.floor_natCast]
  have : (j : ℤ) ≤ 2 * ((72:ℕ) : ℤ) - 1 := by omega
  omega

theorem sampleGrid_cell (g : Grid) (hres : g.res = 72) (i j : ℕ) (hi : i < 72) (hj : j < 144) :
    sampleGrid g (latOfRow i) (lonOfCol j) = g.val i j := by
  unfold sampleGrid
  rw [gridFi_cell g hres i, gridFj_cell g hres j hj, gridI0_cell g hres i hi,
    gridJ0_cell g hres j hj]
  have hxi : (i : ℝ) - ((i : ℤ) : ℝ) = 0 := by push_cast; ring
  have hxj : (j : ℝ) - ((j : ℤ) : ℝ) = 0 := by push_cast; ring
  rw [hxi, hxj, Int.toNat_natCast, Int.toNat_natCast]
  ring

/-! ## Range of the stored and sampled elevation values -/

theorem moonGrid_res : moonGrid.res = 72 := rfl

theorem generateElevation_val_mem (maria craters : List Feature) (i j : ℕ) :
    -(8 * (MOON_RADIUS / MOON_RADIUS_KM)) ≤ (generateElevation maria craters).val i j ∧
      (generateElevation maria craters).val i j ≤ 10 * (MOON_RADIUS / MOON_RADIUS_KM) := by
  have hs : (0:ℝ) ≤ MOON_RADIUS / MOON_RADIUS_KM := by
    unfold MOON_RADIUS MOON_RADIUS_KM
    norm_num
  have h1 : (-8:ℝ) ≤ max (-8) (min 10 (elevRaw maria craters (latOfRow i) (lonOfCol j))) :=
    le_max_left _ _
  have h2 : max (-8) (min 10 (elevRaw maria craters (latOfRow i) (lonOfCol j))) ≤ 10 :=
    max_le (by norm_num) (min_le_left _ _)
  constructor
  · have := mul_le_mul_of_nonneg_right h1 hs
    unfold generateElevation
    simp only
    linarith
  · have := mul_le_mul_of_nonneg_right h2 hs
    unfold generateElevation
    simp only
    linarith

theorem convexFour {fx fy a b c d lo hi : ℝ} (hx0 : 0 ≤ fx) (hx1 : fx ≤ 1)
    (hy0 : 0 ≤ fy) (hy1 : fy ≤ 1)
    (hA : lo ≤ a) (hA2 : a ≤ hi) (hB : lo ≤ b) (hB2 : b ≤ hi)
    (hC : lo ≤ c) (hC2 : c ≤ hi) (hD : lo ≤ d) (hD2 : d ≤ hi) :
    lo ≤ (1 - fx) * (1 - fy) * a + fx * (1 - fy) * b + (1 - fx) * fy * c + fx * fy * d ∧
      (1 - fx) * (1 - fy) * a + fx * (1 - fy) * b + (1 - fx) * fy * c + fx * fy * d ≤ hi := by
  have w1 : (0:ℝ) ≤ (1 - fx) * (1 - fy) := mul_nonneg (by linarith) (by linarith)
  have w2 : (0:ℝ) ≤ fx * (1 - fy) := mul_nonneg hx0 (by linarith)
  have w3 : (0:ℝ) ≤ (1 - fx) * fy := mul_nonneg (by linarith) hy0
  have w4 : (0:ℝ) ≤ fx * fy := mul_nonneg hx0 hy0
  constructor
  · have key : (1 - fx) * (1 - fy) * a + fx * (1 - fy) * b + (1 - fx) * fy * c + fx * fy * d
        - lo = (1 - fx) * (1 - fy) * (a - lo) + fx * (1 - fy) * (b - lo) +
          (1 - fx) * fy * (c - lo) + fx * fy * (d - lo) := by ring
    have t1 := mul_nonneg w1 (by linarith : (0:ℝ) ≤ a - lo)
    have t2 := mul_nonneg w2 (by linarith : (0:ℝ) ≤ b - lo)
    have t3 := mul_nonneg w3 (by linarith : (0:ℝ) ≤ c - lo)
    have t4 := mul_nonneg w4 (by linarith : (0:ℝ) ≤ d - lo)
    linarith
  · have key : hi - ((1 - fx) * (1 - fy) * a + fx * (1 - fy) * b + (1 - fx) * fy * c +
        fx * fy * d) = (1 - fx) * (1 - fy) * (hi - a) + fx * (1 - fy) * (hi - b) +
          (1 - fx) * fy * (hi - c) + fx * fy * (hi - d) := by ring
    have t1 := mul_nonneg w1 (by linarith : (0:ℝ) ≤ hi - a)
    have t2 := mul_nonneg w2 (by linarith : (0:ℝ) ≤ hi - b)
    have t3 := mul_nonneg w3 (by linarith : (0:ℝ) ≤ hi - c)
    have t4 := mul_nonneg w4 (by linarith : (0:ℝ) ≤ hi - d)
    linarith

theorem gridFi_fract {g : Grid} {lat : ℝ} (h1 : -90 ≤ lat) (h2 : lat ≤ 90)
    (hres : 1 ≤ g.res) :
    gridI0 g lat = ⌊gridFi g lat⌋ ∧
      0 ≤ gridFi g lat - (gridI0 g lat : ℝ) ∧ gridFi g lat - (gridI0 g lat : ℝ) ≤ 1 := by
  have hresR : (1:ℝ) ≤ (g.res : ℝ) := by exact_mod_cast hres
  have hfi0 : 0 ≤ gridFi g lat := by
    unfold gridFi
    have : (0:ℝ) ≤ (lat + 90) / 180 := by linarith [div_nonneg (by linarith : (0:ℝ) ≤ lat + 90) (by norm_num : (0:ℝ) ≤ 180)]
    nlinarith
  have hfi1 : gridFi g lat ≤ (g.res : ℝ) - 1 := by
    unfold gridFi
    have h3 : (lat + 90) / 180 ≤ 1 := by
      rw [div_le_one (by norm_num : (0:ℝ) < 180)]
      linarith
    nlinarith
  have hfl0 : (0:ℤ) ≤ ⌊gridFi g lat⌋ := Int.le_floor.mpr (by exact_mod_cast hfi0)
  have hfl1 : ⌊gridFi g lat⌋ ≤ (g.res : ℤ) - 1 := by
    have : gridFi g lat ≤ (((g.res : ℤ) - 1 : ℤ) : ℝ) := by push_cast; linarith
    calc ⌊gridFi g lat⌋ ≤ ⌊(((g.res : ℤ) - 1 : ℤ) : ℝ)⌋ := Int.floor_le_floor this
    _ = (g.res : ℤ) - 1 := Int.floor_intCast _
  have hI0 : gridI0 g lat = ⌊gridFi g lat⌋ := by
    unfold gridI0
    omega
  refine ⟨hI0, ?_, ?_⟩
  · rw [hI0]
    exact sub_nonneg.mpr (Int.floor_le _)
  · rw [hI0]
    have := Int.lt_floor_add_one (gridFi g lat)
    push_cast at this ⊢
    linarith

theorem gridFj_fract {g : Grid} (lon : ℝ) (hres : 1 ≤ g.res) :
    gridJ0 g lon = ⌊gridFj g lon⌋ ∧
      0 ≤ gridFj g lon - (gridJ0 g lon : ℝ) ∧ gridFj g lon - (gridJ0 g lon : ℝ) ≤ 1 := by
  have hresR : (1:ℝ) ≤ (g.res : ℝ) := by exact_mod_cast hres
  obtain ⟨hw1, hw2⟩ := wrapLon_mem lon
  have hfj0 : 0 ≤ gridFj g lon := by
    unfold gridFj
    have : (0:ℝ) ≤ (wrapLon lon + 180) / 360 :=
      div_nonneg (by linarith) (by norm_num)
    nlinarith
  have hfj1 : gridFj g lon ≤ (g.res : ℝ) * 2 - 1 := by
    unfold gridFj
    have h3 : (wrapLon lon + 180) / 360 ≤ 1 := by
      rw [div_le_one (by norm_num : (0:ℝ) < 360)]
      linarith
    nlinarith
  have hfl0 : (0:ℤ) ≤ ⌊gridFj g lon⌋ := Int.le_floor.mpr (by exact_mod_cast hfj0)
  have hfl1 : ⌊gridFj g lon⌋ ≤ 2 * (g.res : ℤ) - 1 := by
    have : gridFj g lon ≤ ((2 * (g.res : ℤ) - 1 : ℤ) : ℝ) := by push_cast; linarith
    calc ⌊gridFj g lon⌋ ≤ ⌊((2 * (g.res : ℤ) - 1 : ℤ) : ℝ)⌋ := Int.floor_le_floor this
    _ = 2 * (g.res : ℤ) - 1 := Int.floor_intCast _
  have hJ0 : gridJ0 g lon = ⌊gridFj g lon⌋ := by
    unfold gridJ0
    omega
  refine ⟨hJ0, ?_, ?_⟩
  · rw [hJ0]
    exact sub_nonneg.mpr (Int.floor_le _)
  · rw [hJ0]
    have := Int.lt_floor_add_one (gridFj g lon)
    push_cast at this ⊢
    linarith

theorem sampleGrid_bounds (g : Grid) (lo hi : ℝ)
    (hv : ∀ i j : ℕ, lo ≤ g.val i j ∧ g.val i j ≤ hi)
    {lat : ℝ} (lon : ℝ) (h1 : -90 ≤ lat) (h2 : lat ≤ 90) (hres : 1 ≤ g.res) :
    lo ≤ sampleGrid g lat lon ∧ sampleGrid g lat lon ≤ hi := by
  obtain ⟨_, hx0, hx1⟩ := @gridFi_fract g lat h1 h2 hres
  obtain ⟨_, hy0, hy1⟩ := @gridFj_fract g lon hres
  unfold sampleGrid
  exact convexFour hx0 hx1 hy0 hy1
    (hv _ _).1 (hv _ _).2 (hv _ _).1 (hv _ _).2 (hv _ _).1 (hv _ _).2 (hv _ _).1 (hv _ _).2

theorem moonGrid_sampleBounded : SampleBounded (some moonGrid) := by
  intro lat lon h1 h2
  exact sampleGrid_bounds moonGrid _ _
    (fun i j => generateElevation_val_mem MARIA CRATERS i j) lon h1 h2 (by norm_num [moonGrid_res])

theorem none_sampleBounded : SampleBounded none := by
  intro lat lon h1 h2
  have hz : getElevationAt lat lon none = 0 := rfl
  rw [hz]
  unfold MOON_RADIUS MOON_RADIUS_KM
  norm_num

/-! ## Haversine facts -/

theorem sqrt_atan2_eq_arcsin (a : ℝ) :
    atan2 (Real.sqrt a) (Real.sqrt (1 - a)) = Real.arcsin (Real.sqrt a) := by
  rcases lt_or_le a 0 with h | h
  · have h1 : Real.sqrt a = 0 := by
      rw [Real.sqrt_eq_zero_of_nonpos h.le]
    have h2 : 0 < Real.sqrt (1 - a) := Real.sqrt_pos.mpr (by linarith)
    rw [h1]
    unfold atan2
    rw [if_pos h2]
    simp [Real.arcsin_zero]
  · rcases lt_or_le a 1 with h3 | h3
    · have h2 : 0 < Real.sqrt (1 - a) := Real.sqrt_pos.mpr (by linarith)
      have hlt : Real.sqrt a < 1 := by
        have := Real.sqrt_lt_sqrt h (show a < 1 from h3)
        simpa [Real.sqrt_one] using this
      unfold atan2
      rw [if_pos h2]
      rw [Real.arcsin_eq_arctan (Set.mem_Ioo.mpr ⟨by linarith [Real.sqrt_nonneg a], hlt⟩)]
      congr 1
      rw [Real.sq_sqrt h]
    · have h2 : Real.sqrt (1 - a) = 0 := Real.sqrt_eq_zero_of_nonpos (by linarith)
      have h4 : 1 ≤ Real.sqrt a := by
        rw [show (1:ℝ) = Real.sqrt 1 from (Real.sqrt_one).symm]
        exact Real.sqrt_le_sqrt h3
      unfold atan2
      rw [h2]
      rw [if_neg (lt_irrefl 0), if_neg (lt_irrefl 0), if_pos (by linarith : (0:ℝ) < Real.sqrt a)]
      rw [Real.arcsin_of_one_le h4]

theorem haversine_eq_arcsin (lat1 lon1 lat2 lon2 : ℝ) :
    haversine lat1 lon1 lat2 lon2 =
      2 * Real.arcsin (Real.sqrt (havA lat1 lon1 lat2 lon2)) * 180 / π := by
  unfold haversine
  rw [sqrt_atan2_eq_arcsin]

theorem haversine_nonneg (lat1 lon1 lat2 lon2 : ℝ) : 0 ≤ haversine lat1 lon1 lat2 lon2 := by
  rw [haversine_eq_arcsin]
  have h1 : 0 ≤ Real.arcsin (Real.sqrt (havA lat1 lon1 lat2 lon2)) :=
    Real.arcsin_nonneg.mpr (Real.sqrt_nonneg _)
  have h2 : (0:ℝ) < π := Real.pi_pos
  positivity

/-! ## C8: features with non-positive size contribute nothing -/

theorem mareDepth_zero_of_nonpos (lat lon : ℝ) {m : Feature} (h : m.size ≤ 0) :
    mareDepth lat lon m = 0 := by
  unfold mareDepth
  rw [if_neg]
  simp only [not_lt]
  have h2 : m.size / 2 ≤ 0 := div_nonpos_of_nonpos_of_nonneg h (by norm_num)
  have h3 : m.size / 2 / 57.3 ≤ 0 := div_nonpos_of_nonpos_of_nonneg h2 (by norm_num)
  exact le_trans h3 (haversine_nonneg _ _ _ _)

theorem craterRelief_zero_of_nonpos (lat lon : ℝ) {c : Feature} (h : c.size ≤ 0) :
    craterRelief lat lon c = 0 := by
  unfold craterRelief
  rw [if_neg]
  simp only [not_lt]
  have h2 : c.size / 2 ≤ 0 := div_nonpos_of_nonpos_of_nonneg h (by norm_num)
  have h3 : c.size / 2 / 111 ≤ 0 := div_nonpos_of_nonpos_of_nonneg h2 (by norm_num)
  have h4 : c.size / 2 / 111 * 2 ≤ 0 := by linarith
  exact le_trans h4 (haversine_nonneg _ _ _ _)

theorem elevRaw_mare_erase {f : Feature} (h : f.size ≤ 0) (l1 l2 cs : List Feature)
    (lat lon : ℝ) : elevRaw (l1 ++ f :: l2) cs lat lon = elevRaw (l1 ++ l2) cs lat lon := by
  unfold elevRaw
  simp only [List.map_append, List.map_cons, List.sum_append, List.sum_cons,
    mareDepth_zero_of_nonpos lat lon h, zero_add]

theorem elevRaw_crater_erase {f : Feature} (h : f.size ≤ 0) (ms l1 l2 : List Feature)
    (lat lon : ℝ) : elevRaw ms (l1 ++ f :: l2) lat lon = elevRaw ms (l1 ++ l2) lat lon := by
  unfold elevRaw
  simp only [List.map_append, List.map_cons, List.sum_append, List.sum_cons,
    craterRelief_zero_of_nonpos lat lon h, zero_add]

/-- C8: a mare or crater feature whose size is non-positive contributes
nothing to any grid cell: the grid built with it present anywhere in the
catalog is identical, cell by cell, to the grid built without it.  Its
influence tests `d < mareR` and `d < craterR*2` can never hold because
the haversine distance is non-negative. -/
theorem C8_nonpositive_feature_ignored (f : Feature) (hf : f.size ≤ 0) :
    (∀ (l1 l2 craters : List Feature) (i j : ℕ),
        (generateElevation (l1 ++ f :: l2) craters).val i j =
          (generateElevation (l1 ++ l2) craters).val i j) ∧
      (∀ (maria l1 l2 : List Feature) (i j : ℕ),
        (generateElevation maria (l1 ++ f :: l2)).val i j =
          (generateElevation maria (l1 ++ l2)).val i j) := by
  constructor
  · intro l1 l2 cs i j
    unfold generateElevation
    simp only
    rw [elevRaw_mare_erase hf]
  · intro ms l1 l2 i j
    unfold generateElevation
    simp only
    rw [elevRaw_crater_erase hf]

theorem C8_nonpositive_feature_ignored_witness :
    (generateElevation ([] ++ badFeature :: []) []).val 0 0 =
        (generateElevation ([] ++ []) []).val 0 0 ∧
      (generateElevation [] ([] ++ badFeature :: [])).val 0 0 =
        (generateElevation [] ([] ++ [])).val 0 0 := by
  have h := C8_nonpositive_feature_ignored badFeature (by norm_num [badFeature])
  exact ⟨h.1 [] [] [] 0 0, h.2 [] [] [] 0 0⟩

/-! ## C5: sampling exactly at a grid vertex -/

/-- C5: for every cell `(i, j)` of the built 72 × 144 grid, sampling at
exactly that cell's coordinates returns exactly the stored value: the
bilinear interpolation degenerates to weight 1 at that vertex (exactly,
over the reals). -/
theorem C5_sample_at_cell_exact (i j : ℕ) (hi : i < 72) (hj : j < 144) :
    getElevationAt (latOfRow i) (lonOfCol j) (some moonGrid) = moonGrid.val i j :=
  sampleGrid_cell moonGrid rfl i j hi hj

theorem C5_sample_at_cell_exact_witness :
    getElevationAt (latOfRow 0) (lonOfCol 0) (some moonGrid) = moonGrid.val 0 0 :=
  C5_sample_at_cell_exact 0 0 (by norm_num) (by norm_num)

/-! ## C6: every stored and sampled value lies in the clamped range -/

/-- C6: every stored grid value lies in
`[-8·(MOON_RADIUS/MOON_RADIUS_KM), 10·(MOON_RADIUS/MOON_RADIUS_KM)]`, and
consequently, for every latitude in `[-90, 90]` and every longitude,
`getElevationAt` returns a value in that range: the bilinear sample is a
convex combination of stored values. -/
theorem C6_elevation_range :
    (∀ i j : ℕ, -(8 * (MOON_RADIUS / MOON_RADIUS_KM)) ≤ moonGrid.val i j ∧
        moonGrid.val i j ≤ 10 * (MOON_RADIUS / MOON_RADIUS_KM)) ∧
      ∀ lat lon : ℝ, -90 ≤ lat → lat ≤ 90 →
        -(8 * (MOON_RADIUS / MOON_RADIUS_KM)) ≤ getElevationAt lat lon (some moonGrid) ∧
          getElevationAt lat lon (some moonGrid) ≤ 10 * (MOON_RADIUS / MOON_RADIUS_KM) :=
  ⟨fun i j => generateElevation_val_mem MARIA CRATERS i j, moonGrid_sampleBounded⟩

/-! ## C9: a missing elevation grid degrades to zero elevation -/

theorem sampleGrid_zeroGrid (lat lon : ℝ) : sampleGrid zeroGrid lat lon = 0 := by
  unfold sampleGrid zeroGrid
  simp only
  ring

/-- C9: with no elevation grid built, trajectory construction still
succeeds: `getElevationAt` returns the neutral fallback 0 everywhere, and
the trajectory built with the missing grid coincides with the one built
from an all-zero elevation field. -/
theorem C9_missing_grid_fallback (a : Artifact) :
    (∀ lat lon : ℝ, getElevationAt lat lon none = 0) ∧
      buildTrajectory a none = buildTrajectory a (some zeroGrid) := by
  have hz : ∀ lat lon : ℝ, getElevationAt lat lon (some zeroGrid) = getElevationAt lat lon none :=
    fun lat lon => sampleGrid_zeroGrid lat lon
  refine ⟨fun lat lon => rfl, ?_⟩
  have h1 : landingPos a (some zeroGrid) = landingPos a none := by
    unfold landingPos landingElev
    rw [hz]
  have h2 : ∀ p, surfaceElevAt (some zeroGrid) p = surfaceElevAt none p := by
    intro p
    unfold surfaceElevAt
    rw [hz]
  have h4 : ∀ p, minRadiusAt (some zeroGrid) p = minRadiusAt none p := by
    intro p
    unfold minRadiusAt
    rw [h2]
  unfold buildTrajectory
  by_cases hc : isCurrentlyOrbiting a
  · rw [if_pos hc, if_pos hc]
  · rw [if_neg hc, if_neg hc]
    by_cases ho : isOrbiter a
    · rw [if_pos ho, if_pos ho]
      have hdp : descentPart a none = descentPart a (some zeroGrid) := by
        unfold descentPart
        rw [h1]
        have hfun : (fun k => descentPointAt (lastOrbitPoint a) (landingPos a none) none (k + 1))
            = fun k => descentPointAt (lastOrbitPoint a) (landingPos a none) (some zeroGrid)
              (k + 1) := by
          funext k
          simp only [descentPointAt, h4]
        rw [hfun]
      rw [hdp]
    · rw [if_neg ho, if_neg ho]
      unfold directArcPoints directControl
      rw [h1]

/-! ## C7: the steady-orbit loop is closed -/

theorem orbitLoopPoint_zero : orbitLoopPoint 0 = ⟨MOON_RADIUS + 80, 0, 0⟩ := by
  unfold orbitLoopPoint
  norm_num

theorem orbitLoopPoint_last : orbitLoopPoint 100 = ⟨MOON_RADIUS + 80, 0, 0⟩ := by
  unfold orbitLoopPoint
  have hang : ((100 : ℕ) : ℝ) / 100 * π * 2 = 2 * π := by push_cast; ring
  simp only [hang]
  have h4 : 2 * π * 2 = 0 + (2 : ℤ) * (2 * π) := by push_cast; ring
  rw [Real.cos_two_pi, Real.sin_two_pi, h4, Real.sin_add_int_mul_two_pi, Real.sin_zero]
  norm_num

/-- C7: for a mission whose status is `"orbiting"` (case-insensitively),
the synthesized trajectory is a closed loop of exactly 101 points whose
first and last points coincide (exactly, over the reals). -/
theorem C7_orbiting_closed_loop (a : Artifact) (data : Option Grid)
    (h : strToLower a.status = "orbiting") :
    (buildTrajectory a data).length = 101 ∧
      (buildTrajectory a data).head? = some ⟨MOON_RADIUS + 80, 0, 0⟩ ∧
      (buildTrajectory a data).getLast? = some ⟨MOON_RADIUS + 80, 0, 0⟩ := by
  have hb : buildTrajectory a data = orbitLoopPoints := by
    unfold buildTrajectory isCurrentlyOrbiting
    rw [if_pos h]
  rw [hb]
  unfold orbitLoopPoints
  refine ⟨by rw [List.length_map, List.length_range], ?_, ?_⟩
  · rw [List.range_succ_eq_map]
    simp only [List.map_cons, List.head?_cons]
    rw [orbitLoopPoint_zero]
  · rw [List.range_succ, List.map_append, List.map_cons, List.map_nil, List.getLast?_concat]
    rw [orbitLoopPoint_last]

theorem C7_orbiting_closed_loop_witness :
    (buildTrajectory aOrbiting none).length = 101 ∧
      (buildTrajectory aOrbiting none).head? = some ⟨MOON_RADIUS + 80, 0, 0⟩ ∧
      (buildTrajectory aOrbiting none).getLast? = some ⟨MOON_RADIUS + 80, 0, 0⟩ :=
  C7_orbiting_closed_loop aOrbiting none (by decide)

/-! ## C4: first-fit label placement -/

theorem firstClearOffset_spec (basePos : Vec3) (existing : List Vec3) :
    ∀ (L : List Vec3) (p : Vec3), firstClearOffset basePos existing L = some p →
      ∃ k : ℕ, k < L.length ∧ p = vadd basePos (L.getD k ⟨0, 0, 0⟩) ∧
        isClearPos (vadd basePos (L.getD k ⟨0, 0, 0⟩)) existing ∧
        ∀ m : ℕ, m < k → ¬ isClearPos (vadd basePos (L.getD m ⟨0, 0, 0⟩)) existing := by
  intro L
  induction L with
  | nil => intro p h; simp [firstClearOffset] at h
  | cons o os ih =>
    intro p h
    unfold firstClearOffset at h
    by_cases hc : isClearPos ⟨basePos.x + o.x, basePos.y + o.y, basePos.z + o.z⟩ existing
    · rw [if_pos hc] at h
      have hp : p = vadd basePos o := (Option.some.inj h).symm
      refine ⟨0, by simp, by simpa [List.getD] using hp, ?_, by omega⟩
      simpa [List.getD, vadd] using hc
    · rw [if_neg hc] at h
      obtain ⟨k, hk, hp, hcl, hmin⟩ := ih p h
      refine ⟨k + 1, by simpa using Nat.succ_lt_succ hk, by simpa using hp,
        by simpa using hcl, ?_⟩
      intro m hm
      cases m with
      | zero => simpa [List.getD, vadd] using hc
      | succ m2 => simpa using hmin m2 (Nat.lt_of_succ_lt_succ hm)

/-- C4: whenever the candidate loop of `findLabelPosition` succeeds (the
non-fallback case), the returned position is the anchor plus one of the
eight fixed offsets, its distance to every previously chosen position is
at least 30, and it is the first candidate in the fixed priority order
satisfying that condition. -/
theorem C4_first_fit_label (r1 r2 r3 : ℝ) (basePos : Vec3) (existing : List Vec3) (p : Vec3)
    (h : firstClearOffset basePos existing labelOffsets = some p) :
    findLabelPosition r1 r2 r3 basePos existing = p ∧
      ∃ k : ℕ, k < 8 ∧ p = vadd basePos (labelOffsets.getD k ⟨0, 0, 0⟩) ∧
        (∀ q ∈ existing, 30 ≤ vdist p q) ∧
        ∀ m : ℕ, m < k →
          ∃ q ∈ existing, vdist (vadd basePos (labelOffsets.getD m ⟨0, 0, 0⟩)) q < 30 := by
  constructor
  · unfold findLabelPosition
    rw [h]
  · obtain ⟨k, hk, hp, hcl, hmin⟩ := firstClearOffset_spec basePos existing labelOffsets p h
    refine ⟨k, by simpa [labelOffsets] using hk, hp, ?_, ?_⟩
    · intro q hq
      rw [hp]
      exact not_lt.mp (hcl q hq)
    · intro m hm
      have h2 := hmin m hm
      unfold isClearPos at h2
      push_neg at h2
      exact h2

theorem C4_first_fit_label_witness :
    findLabelPosition 0 0 0 ⟨0, 0, 0⟩ [] = ⟨0, 12, 0⟩ ∧
      ∃ k : ℕ, k < 8 ∧ (⟨0, 12, 0⟩ : Vec3) = vadd ⟨0, 0, 0⟩ (labelOffsets.getD k ⟨0, 0, 0⟩) ∧
        (∀ q ∈ ([] : List Vec3), 30 ≤ vdist ⟨0, 12, 0⟩ q) ∧
        ∀ m : ℕ, m < k →
          ∃ q ∈ ([] : List Vec3), vdist (vadd ⟨0, 0, 0⟩ (labelOffsets.getD m ⟨0, 0, 0⟩)) q < 30 :=
  C4_first_fit_label 0 0 0 ⟨0, 0, 0⟩ [] ⟨0, 12, 0⟩
    (by norm_num [firstClearOffset, labelOffsets, isClearPos])

/-! ## C10: label placement leaves its arguments unchanged -/

/-- C10: the placement procedure does not modify `basePos` or the
`existingPositions` list (its state-passing translation returns both
unchanged), and the returned vector is a fresh value distinct from the
anchor: every candidate offset and the fallback raise `y` strictly. -/
theorem C10_label_placement_frame (r1 r2 r3 : ℝ) (basePos : Vec3) (existing : List Vec3)
    (hr2 : 0 ≤ r2) :
    (findLabelPositionProc r1 r2 r3 basePos existing).2.1 = basePos ∧
      (findLabelPositionProc r1 r2 r3 basePos existing).2.2 = existing ∧
      (findLabelPositionProc r1 r2 r3 basePos existing).1 ≠ basePos := by
  refine ⟨rfl, rfl, ?_⟩
  show findLabelPosition r1 r2 r3 basePos existing ≠ basePos
  rcases hfc : firstClearOffset basePos existing labelOffsets with _ | p
  · have hval : findLabelPosition r1 r2 r3 basePos existing =
        ⟨basePos.x + (r1 - 0.5) * 40, basePos.y + 12 + r2 * 20, basePos.z + (r3 - 0.5) * 40⟩ := by
      unfold findLabelPosition
      rw [hfc]
    rw [hval]
    intro hEq
    have hy := congrArg Vec3.y hEq
    simp only at hy
    linarith
  · have hval : findLabelPosition r1 r2 r3 basePos existing = p := by
      unfold findLabelPosition
      rw [hfc]
    rw [hval]
    obtain ⟨k, hk, hp, _, _⟩ := firstClearOffset_spec basePos existing labelOffsets p hfc
    rw [hp]
    intro hEq
    have hy := congrArg Vec3.y hEq
    simp only [vadd] at hy
    have hk8 : k < 8 := by simpa [labelOffsets] using hk
    interval_cases k <;>
      simp only [labelOffsets, List.getD_cons_zero, List.getD_cons_succ] at hy <;>
      linarith

theorem C10_label_placement_frame_witness :
    (findLabelPositionProc 0 0 0 ⟨0, 0, 0⟩ []).2.1 = ⟨0, 0, 0⟩ ∧
      (findLabelPositionProc 0 0 0 ⟨0, 0, 0⟩ []).2.2 = [] ∧
      (findLabelPositionProc 0 0 0 ⟨0, 0, 0⟩ []).1 ≠ ⟨0, 0, 0⟩ :=
  C10_label_placement_frame 0 0 0 ⟨0, 0, 0⟩ [] le_rfl

/-! ## C2: the unprojection formulas against the projection -/

theorem atan2_smul {c : ℝ} (hc : 0 < c) (y x : ℝ) : atan2 (c * y) (c * x) = atan2 y x := by
  have hdiv : c * y / (c * x) = y / x := mul_div_mul_left y x hc.ne'
  have h1 : (0 < c * x) ↔ (0 < x) := ⟨fun h => by nlinarith, fun h => by nlinarith⟩
  have h2 : (c * x < 0) ↔ (x < 0) := ⟨fun h => by nlinarith, fun h => by nlinarith⟩
  have h3 : (0 ≤ c * y) ↔ (0 ≤ y) := ⟨fun h => by nlinarith, fun h => by nlinarith⟩
  have h4 : (0 < c * y) ↔ (0 < y) := ⟨fun h => by nlinarith, fun h => by nlinarith⟩
  have h5 : (c * y < 0) ↔ (y < 0) := ⟨fun h => by nlinarith, fun h => by nlinarith⟩
  unfold atan2
  by_cases hx : 0 < x
  · rw [if_pos hx, if_pos (h1.mpr hx), hdiv]
  · rw [if_neg hx, if_neg (fun h => hx (h1.mp h))]
    by_cases hx2 : x < 0
    · rw [if_pos hx2, if_pos (h2.mpr hx2)]
      by_cases hy : 0 ≤ y
      · rw [if_pos hy, if_pos (h3.mpr hy), hdiv]
      · rw [if_neg hy, if_neg (fun h => hy (h3.mp h)), hdiv]
    · rw [if_neg hx2, if_neg (fun h => hx2 (h2.mp h))]
      by_cases hy : 0 < y
      · rw [if_pos hy, if_pos (h4.mpr hy)]
      · rw [if_neg hy, if_neg (fun h => hy (h4.mp h))]
        by_cases hy2 : y < 0
        · rw [if_pos hy2, if_pos (h5.mpr hy2)]
        · rw [if_neg hy2, if_neg (fun h => hy2 (h5.mp h))]

theorem atan2_cos_neg_sin {l : ℝ} (h1 : -π < l) (h2 : l < π) :
    atan2 (Real.cos l) (-Real.sin l) = if l ≤ π / 2 then l + π / 2 else l - 3 * π / 2 := by
  have hpi := Real.pi_pos
  rcases lt_trichotomy l 0 with hl | rfl | hl
  · have hs : Real.sin l < 0 := Real.sin_neg_of_neg_of_neg_pi_lt hl h1
    have hx : 0 < -Real.sin l := by linarith
    unfold atan2
    rw [if_pos hx]
    have harg : Real.cos l / -Real.sin l = Real.tan (l + π / 2) := by
      rw [Real.tan_eq_sin_div_cos, Real.sin_add_pi_div_two, Real.cos_add_pi_div_two]
    rw [harg, Real.arctan_tan (by linarith) (by linarith), if_pos (by linarith : l ≤ π / 2)]
  · unfold atan2
    rw [Real.sin_zero, Real.cos_zero, neg_zero]
    rw [if_neg (lt_irrefl 0), if_neg (lt_irrefl 0), if_pos one_pos,
      if_pos (by linarith : (0:ℝ) ≤ π / 2)]
    ring
  · have hs : 0 < Real.sin l := Real.sin_pos_of_pos_of_lt_pi hl h2
    have hx : -Real.sin l < 0 := by linarith
    unfold atan2
    rw [if_neg (by linarith : ¬ (0 < -Real.sin l)), if_pos hx]
    have harg : Real.cos l / -Real.sin l = Real.tan (l - π / 2) := by
      rw [Real.tan_eq_sin_div_cos, Real.sin_sub_pi_div_two, Real.cos_sub_pi_div_two,
        div_neg, neg_div]
    rcases le_or_lt l (π / 2) with hle | hgt
    · have hy : 0 ≤ Real.cos l := Real.cos_nonneg_of_mem_Icc ⟨by linarith, hle⟩
      rw [if_pos hy, harg, Real.arctan_tan (by linarith) (by linarith), if_pos hle]
      ring
    · have hy : Real.cos l < 0 := Real.cos_neg_of_pi_div_two_lt_of_lt hgt (by linarith)
      rw [if_neg (not_le.mpr hy), harg, Real.arctan_tan (by linarith) (by linarith),
        if_neg (not_le.mpr hgt)]
      ring

theorem vlen_latLon (lat lon r : ℝ) : vlen (latLonToVector3 lat lon r) = |r| := by
  unfold vlen latLonToVector3
  simp only
  have hθ : Real.sin ((lon + 180) * (π / 180)) ^ 2 + Real.cos ((lon + 180) * (π / 180)) ^ 2 = 1 :=
    Real.sin_sq_add_cos_sq _
  have hφ : Real.sin ((90 - lat) * (π / 180)) ^ 2 + Real.cos ((90 - lat) * (π / 180)) ^ 2 = 1 :=
    Real.sin_sq_add_cos_sq _
  have heq : -r * Real.sin ((90 - lat) * (π / 180)) * Real.cos ((lon + 180) * (π / 180)) *
        (-r * Real.sin ((90 - lat) * (π / 180)) * Real.cos ((lon + 180) * (π / 180))) +
      r * Real.cos ((90 - lat) * (π / 180)) * (r * Real.cos ((90 - lat) * (π / 180))) +
      r * Real.sin ((90 - lat) * (π / 180)) * Real.sin ((lon + 180) * (π / 180)) *
        (r * Real.sin ((90 - lat) * (π / 180)) * Real.sin ((lon + 180) * (π / 180))) = r ^ 2 := by
    linear_combination (r ^ 2 * Real.sin ((90 - lat) * (π / 180)) ^ 2) * hθ + r ^ 2 * hφ
  rw [heq, Real.sqrt_sq_eq_abs]

theorem unprojLat_project {lat lon r : ℝ} (h1 : -90 ≤ lat) (h2 : lat ≤ 90) (hr : 0 < r) :
    unprojLat (latLonToVector3 lat lon r) = lat := by
  have hpi := Real.pi_pos
  unfold unprojLat
  rw [vlen_latLon, abs_of_pos hr]
  have hy : (latLonToVector3 lat lon r).y = r * Real.sin (lat * (π / 180)) := by
    unfold latLonToVector3
    simp only
    rw [show (90 - lat) * (π / 180) = π / 2 - lat * (π / 180) by ring, Real.cos_pi_div_two_sub]
  have hdiv : r * Real.sin (lat * (π / 180)) / r = Real.sin (lat * (π / 180)) := by
    field_simp
  have hb1 : 0 ≤ (lat + 90) * (π / 180) := mul_nonneg (by linarith) (by positivity)
  have hb2 : 0 ≤ (90 - lat) * (π / 180) := by
    apply mul_nonneg (by linarith) (by positivity)
  rw [hy, hdiv, Real.arcsin_sin (by nlinarith) (by nlinarith)]
  have hπ : π ≠ 0 := Real.pi_ne_zero
  field_simp

theorem unprojLon_project {lat lon r : ℝ} (h1 : -90 < lat) (h2 : lat < 90)
    (h3 : -180 < lon) (h4 : lon < 180) (hr : 0 < r) :
    unprojLon (latLonToVector3 lat lon r) = if lon ≤ 90 then lon + 90 else lon - 270 := by
  have hpi := Real.pi_pos
  unfold unprojLon
  have hx : (latLonToVector3 lat lon r).x =
      r * Real.sin ((90 - lat) * (π / 180)) * Real.cos (lon * (π / 180)) := by
    unfold latLonToVector3
    simp only
    rw [show (lon + 180) * (π / 180) = lon * (π / 180) + π by ring, Real.cos_add_pi]
    ring
  have hz : (latLonToVector3 lat lon r).z =
      r * Real.sin ((90 - lat) * (π / 180)) * -Real.sin (lon * (π / 180)) := by
    unfold latLonToVector3
    simp only
    rw [show (lon + 180) * (π / 180) = lon * (π / 180) + π by ring, Real.sin_add_pi]
  have hsin : 0 < Real.sin ((90 - lat) * (π / 180)) := by
    apply Real.sin_pos_of_pos_of_lt_pi
    · exact mul_pos (by linarith) (by positivity)
    · nlinarith
  have hcpos : 0 < r * Real.sin ((90 - lat) * (π / 180)) := mul_pos hr hsin
  rw [hx, hz, atan2_smul hcpos, atan2_cos_neg_sin (by nlinarith) (by nlinarith)]
  have hπ : π ≠ 0 := Real.pi_ne_zero
  have hiff : (lon * (π / 180) ≤ π / 2) ↔ (lon ≤ 90) := by
    constructor
    · intro h
      nlinarith
    · intro h
      nlinarith
  by_cases hcase : lon ≤ 90
  · rw [if_pos (hiff.mpr hcase), if_pos hcase]
    field_simp
    ring
  · rw [if_neg (fun hh => hcase (hiff.mp hh)), if_neg hcase]
    field_simp
    ring

/-- C2, corrected: for `lat ∈ (-90, 90)`, `lon ∈ (-180, 180)` and `r > 0`,
the unprojection formulas `lat' = asin(y/r)·180/π`, `lon' = atan2(x,z)·180/π`
applied to `latLonToVector3 lat lon r` recover the latitude exactly, but
return the longitude shifted by +90 degrees (wrapped into `(-180, 180]`),
not the original longitude. -/
theorem C2_unproject_project (lat lon r : ℝ) (h1 : -90 < lat) (h2 : lat < 90)
    (h3 : -180 < lon) (h4 : lon < 180) (hr : 0 < r) :
    unprojLat (latLonToVector3 lat lon r) = lat ∧
      unprojLon (latLonToVector3 lat lon r) = (if lon ≤ 90 then lon + 90 else lon - 270) :=
  ⟨unprojLat_project h1.le h2.le hr, unprojLon_project h1 h2 h3 h4 hr⟩

theorem C2_unproject_project_witness :
    unprojLat (latLonToVector3 0 0 1) = 0 ∧
      unprojLon (latLonToVector3 0 0 1) = (if (0:ℝ) ≤ 90 then 0 + 90 else 0 - 270) :=
  C2_unproject_project 0 0 1 (by norm_num) (by norm_num) (by norm_num) (by norm_num)
    (by norm_num)

/-- C2 counterexample: at `lat = 0`, `lon = 0`, `r = 1` the unprojection of
the projected point returns longitude 90, not 0: the claimed round-trip
identity fails by a quarter turn. -/
theorem C2_unproject_project_cex :
    unprojLon (latLonToVector3 0 0 1) = 90 ∧ unprojLon (latLonToVector3 0 0 1) ≠ 0 := by
  have h := @unprojLon_project 0 0 1 (by norm_num) (by norm_num)
    (by norm_num) (by norm_num) (by norm_num)
  rw [if_pos (by norm_num : (0:ℝ) ≤ 90)] at h
  norm_num at h
  exact ⟨h, by rw [h]; norm_num⟩

/-! ## Vector norm facts -/

theorem vlen_nonneg (a : Vec3) : 0 ≤ vlen a := Real.sqrt_nonneg _

theorem vlen_sq (a : Vec3) : vlen a * vlen a = a.x * a.x + a.y * a.y + a.z * a.z := by
  unfold vlen
  exact Real.mul_self_sqrt (by nlinarith [sq_nonneg a.x, sq_nonneg a.y, sq_nonneg a.z])

theorem vlen_smul (c : ℝ) (a : Vec3) : vlen (vsmul c a) = |c| * vlen a := by
  unfold vlen vsmul
  simp only
  rw [show c * a.x * (c * a.x) + c * a.y * (c * a.y) + c * a.z * (c * a.z) =
    c ^ 2 * (a.x * a.x + a.y * a.y + a.z * a.z) by ring]
  rw [Real.sqrt_mul (sq_nonneg c), Real.sqrt_sq_eq_abs]

theorem dot_le_vlen_mul (a b : Vec3) :
    a.x * b.x + a.y * b.y + a.z * b.z ≤ vlen a * vlen b := by
  have h2 : (a.x * b.x + a.y * b.y + a.z * b.z) ^ 2 ≤
      (a.x * a.x + a.y * a.y + a.z * a.z) * (b.x * b.x + b.y * b.y + b.z * b.z) := by
    nlinarith [sq_nonneg (a.x * b.y - a.y * b.x), sq_nonneg (a.x * b.z - a.z * b.x),
      sq_nonneg (a.y * b.z - a.z * b.y)]
  have hA := vlen_sq a
  have hB := vlen_sq b
  have hna := vlen_nonneg a
  have hnb := vlen_nonneg b
  nlinarith [sq_nonneg (a.x * b.x + a.y * b.y + a.z * b.z - vlen a * vlen b),
    sq_nonneg (a.x * b.x + a.y * b.y + a.z * b.z + vlen a * vlen b),
    mul_nonneg hna hnb]

theorem vlen_add_le (a b : Vec3) : vlen (vadd a b) ≤ vlen a + vlen b := by
  have hx : (vadd a b).x = a.x + b.x := rfl
  have hy : (vadd a b).y = a.y + b.y := rfl
  have hz : (vadd a b).z = a.z + b.z := rfl
  have hS := vlen_sq (vadd a b)
  rw [hx, hy, hz] at hS
  have hdot := dot_le_vlen_mul a b
  have hA := vlen_sq a
  have hB := vlen_sq b
  have h3 : vlen (vadd a b) * vlen (vadd a b) ≤ (vlen a + vlen b) * (vlen a + vlen b) := by
    nlinarith
  nlinarith [vlen_nonneg (vadd a b), vlen_nonneg a, vlen_nonneg b]

theorem vlen_rev_triangle (u v : Vec3) : vlen u - vlen v ≤ vlen (vadd u v) := by
  obtain ⟨ux, uy, uz⟩ := u
  obtain ⟨vx, vy, vz⟩ := v
  have h := vlen_add_le (vadd ⟨ux, uy, uz⟩ ⟨vx, vy, vz⟩) (vsmul (-1) ⟨vx, vy, vz⟩)
  have hu : vadd (vadd ⟨ux, uy, uz⟩ ⟨vx, vy, vz⟩) (vsmul (-1) ⟨vx, vy, vz⟩) =
      (⟨ux, uy, uz⟩ : Vec3) := by
    unfold vadd vsmul
    simp only [Vec3.mk.injEq]
    refine ⟨by ring, by ring, by ring⟩
  rw [hu, vlen_smul] at h
  simp only [abs_neg, abs_one, one_mul] at h
  linarith

theorem vlen_rev_triangle_right (u v : Vec3) : vlen v - vlen u ≤ vlen (vadd u v) := by
  obtain ⟨ux, uy, uz⟩ := u
  obtain ⟨vx, vy, vz⟩ := v
  have h := vlen_rev_triangle ⟨vx, vy, vz⟩ ⟨ux, uy, uz⟩
  have hc : vadd (⟨vx, vy, vz⟩ : Vec3) ⟨ux, uy, uz⟩ = vadd ⟨ux, uy, uz⟩ ⟨vx, vy, vz⟩ := by
    unfold vadd
    simp only [Vec3.mk.injEq]
    refine ⟨by ring, by ring, by ring⟩
  rw [hc] at h
  exact h

/-! ## Scaling invariance of the unprojected location -/

theorem vsmul_vsmul (a b : ℝ) (p : Vec3) : vsmul a (vsmul b p) = vsmul (a * b) p := by
  unfold vsmul
  simp only [Vec3.mk.injEq]
  refine ⟨by ring, by ring, by ring⟩

theorem vadd_vsmul_self (k : ℝ) (p : Vec3) : vadd p (vsmul k p) = vsmul (1 + k) p := by
  obtain ⟨px, py, pz⟩ := p
  unfold vadd vsmul
  simp only [Vec3.mk.injEq]
  refine ⟨by ring, by ring, by ring⟩

theorem unprojLat_smul {k : ℝ} (hk : 0 < k) {p : Vec3} (hp : vlen p ≠ 0) :
    unprojLat (vsmul k p) = unprojLat p := by
  unfold unprojLat
  rw [vlen_smul, abs_of_pos hk]
  have hy : (vsmul k p).y = k * p.y := rfl
  rw [hy, mul_div_mul_left _ _ hk.ne']

theorem unprojLon_smul {k : ℝ} (hk : 0 < k) (p : Vec3) :
    unprojLon (vsmul k p) = unprojLon p := by
  unfold unprojLon
  have hx : (vsmul k p).x = k * p.x := rfl
  have hz : (vsmul k p).z = k * p.z := rfl
  rw [hx, hz, atan2_smul hk]

theorem minRadiusAt_smul (data : Option Grid) {k : ℝ} (hk : 0 < k) {p : Vec3}
    (hp : vlen p ≠ 0) : minRadiusAt data (vsmul k p) = minRadiusAt data p := by
  unfold minRadiusAt surfaceElevAt
  rw [unprojLat_smul hk hp, unprojLon_smul hk]

/-! ## Bounds on the sampled surface elevation -/

theorem unprojLat_mem (p : Vec3) : -90 ≤ unprojLat p ∧ unprojLat p ≤ 90 := by
  have hpi := Real.pi_pos
  have h1 := Real.neg_pi_div_two_le_arcsin (p.y / vlen p)
  have h2 := Real.arcsin_le_pi_div_two (p.y / vlen p)
  have hfac : (0:ℝ) < 180 / π := by positivity
  unfold unprojLat
  constructor
  · have := mul_le_mul_of_nonneg_right h1 hfac.le
    have heq : -(π / 2) * (180 / π) = -90 := by
      field_simp
      ring
    linarith [heq ▸ this]
  · have := mul_le_mul_of_nonneg_right h2 hfac.le
    have heq : π / 2 * (180 / π) = 90 := by
      field_simp
      ring
    linarith [heq ▸ this]

theorem surfaceElevAt_bounds {data : Option Grid} (hb : SampleBounded data) (p : Vec3) :
    -1.842 ≤ surfaceElevAt data p ∧ surfaceElevAt data p ≤ 2.303 := by
  obtain ⟨hm1, hm2⟩ := unprojLat_mem p
  have h := hb (unprojLat p) (unprojLon p) hm1 hm2
  unfold MOON_RADIUS MOON_RADIUS_KM at h
  unfold surfaceElevAt
  constructor
  · nlinarith [h.1]
  · nlinarith [h.2]

theorem minRadiusAt_bounds {data : Option Grid} (hb : SampleBounded data) (p : Vec3) :
    201.158 ≤ minRadiusAt data p ∧ minRadiusAt data p ≤ 205.303 := by
  obtain ⟨h1, h2⟩ := surfaceElevAt_bounds hb p
  unfold minRadiusAt MOON_RADIUS
  constructor
  · linarith
  · linarith

/-! ## Norms along the synthesized path -/

theorem vlen_orbitPointAt (a : Artifact) (i : ℕ) :
    vlen (orbitPointAt a i) = MOON_RADIUS + 80 := by
  unfold orbitPointAt vlen
  simp only
  set aφ := landingPhi a + (π / 2 - landingPhi a) * (1 - (i : ℝ) / 35) with haφ
  set ang := startAngle a + angleSpan a * ((i : ℝ) / 35) with hang
  have hθ : Real.sin ang ^ 2 + Real.cos ang ^ 2 = 1 := Real.sin_sq_add_cos_sq _
  have hφ : Real.sin aφ ^ 2 + Real.cos aφ ^ 2 = 1 := Real.sin_sq_add_cos_sq _
  have heq : -Real.sin aφ * Real.cos ang * (MOON_RADIUS + 80) *
        (-Real.sin aφ * Real.cos ang * (MOON_RADIUS + 80)) +
      Real.cos aφ * (MOON_RADIUS + 80) * (Real.cos aφ * (MOON_RADIUS + 80)) +
      Real.sin aφ * Real.sin ang * (MOON_RADIUS + 80) *
        (Real.sin aφ * Real.sin ang * (MOON_RADIUS + 80)) = (MOON_RADIUS + 80) ^ 2 := by
    linear_combination ((MOON_RADIUS + 80) ^ 2 * Real.sin aφ ^ 2) * hθ +
      (MOON_RADIUS + 80) ^ 2 * hφ
  rw [heq, Real.sqrt_sq (by unfold MOON_RADIUS; norm_num)]

theorem vlen_landingPos {a : Artifact} {data : Option Grid} (hb : SampleBounded data)
    (h1 : -90 ≤ a.lat) (h2 : a.lat ≤ 90) :
    198 ≤ vlen (landingPos a data) ∧ vlen (landingPos a data) ≤ 203 := by
  have hel := hb a.lat a.lon h1 h2
  unfold MOON_RADIUS MOON_RADIUS_KM at hel
  have hr1 : (198:ℝ) ≤ MOON_RADIUS + landingElev a data * 2 := by
    unfold MOON_RADIUS landingElev
    nlinarith [hel.1]
  have hr2 : MOON_RADIUS + landingElev a data * 2 ≤ 203 := by
    unfold MOON_RADIUS landingElev
    nlinarith [hel.2]
  unfold landingPos
  rw [vlen_latLon, abs_of_pos (by linarith)]
  exact ⟨hr1, hr2⟩

theorem descentBase_eq (LO L : Vec3) (t : ℝ) :
    descentBase LO L t = vadd (vsmul (1 - t) LO) (vsmul t L) := by
  unfold descentBase vadd vsmul
  simp only [Vec3.mk.injEq]
  refine ⟨by ring, by ring, by ring⟩

theorem descentBase_len_pos {LO L : Vec3} {k : ℕ} (hk : k < 40)
    (hLO : vlen LO = 280) (hL1 : 198 ≤ vlen L) (hL2 : vlen L ≤ 203) :
    0 < vlen (descentBase LO L (((k + 1 : ℕ) : ℝ) / 40)) := by
  set t : ℝ := ((k + 1 : ℕ) : ℝ) / 40 with ht
  have ht0 : 0 < t := by positivity
  have ht1 : t ≤ 1 := by
    rw [ht, div_le_one (by norm_num : (0:ℝ) < 40)]
    exact_mod_cast hk
  rw [descentBase_eq]
  rcases le_or_lt (k + 1) 23 with hc | hc
  · have ht23 : t ≤ 23 / 40 := by
      rw [ht, div_le_div_iff_of_pos_right (by norm_num : (0:ℝ) < 40)]
      exact_mod_cast hc
    have h1 := vlen_rev_triangle (vsmul (1 - t) LO) (vsmul t L)
    rw [vlen_smul, vlen_smul, hLO, abs_of_nonneg (by linarith : (0:ℝ) ≤ 1 - t),
      abs_of_nonneg ht0.le] at h1
    nlinarith
  · have ht24 : 24 / 40 ≤ t := by
      rw [ht, div_le_div_iff_of_pos_right (by norm_num : (0:ℝ) < 40)]
      exact_mod_cast hc
    have h1 := vlen_rev_triangle_right (vsmul (1 - t) LO) (vsmul t L)
    rw [vlen_smul, vlen_smul, hLO, abs_of_nonneg (by linarith : (0:ℝ) ≤ 1 - t),
      abs_of_nonneg ht0.le] at h1
    nlinarith

theorem vlen_descentBulged {LO L : Vec3} {t : ℝ} (ht0 : 0 ≤ t) (ht1 : t ≤ 1)
    (hbase : 0 < vlen (descentBase LO L t)) :
    vlen (descentBulged LO L t) = vlen (descentBase LO L t) + 4 * t * (1 - t) * 30 := by
  set B := vlen (descentBase LO L t) with hB
  have hc0 : 0 ≤ 4 * t * (1 - t) * 30 := by nlinarith
  unfold descentBulged vnormalize
  rw [if_neg hbase.ne', vsmul_vsmul, vadd_vsmul_self, vlen_smul, ← hB]
  have hpos : 0 < 1 + 4 * t * (1 - t) * 30 * (1 / B) := by positivity
  rw [abs_of_pos hpos]
  field_simp

/-! ## C1 (amended): the descent portion respects the clearance shell -/

/-- C1, corrected: every point of the descent portion of an
orbit-then-descend trajectory lies at distance at least
`MOON_RADIUS + 2·sample(lat,lon) + 3` from the center, where `(lat,lon)`
is the point's unprojected location — the approach, orbit and direct-arc
portions carry no such guarantee (see the counterexample). -/
theorem C1_descent_clearance (a : Artifact) (data : Option Grid) (hb : SampleBounded data)
    (h1 : -90 ≤ a.lat) (h2 : a.lat ≤ 90) :
    ∀ p ∈ descentPart a data, minRadiusAt data p ≤ vlen p := by
  intro p hp
  rw [descentPart, List.mem_map] at hp
  obtain ⟨k, hk, rfl⟩ := hp
  rw [List.mem_range] at hk
  unfold descentPointAt
  simp only
  set t : ℝ := ((k + 1 : ℕ) : ℝ) / 40 with ht
  have ht0 : 0 < t := by positivity
  have ht1 : t ≤ 1 := by
    rw [ht, div_le_one (by norm_num : (0:ℝ) < 40)]
    have hk40 : k + 1 ≤ 40 := hk
    exact_mod_cast hk40
  have hLO : vlen (lastOrbitPoint a) = 280 := by
    unfold lastOrbitPoint
    rw [vlen_orbitPointAt]
    unfold MOON_RADIUS
    norm_num
  obtain ⟨hL1, hL2⟩ := vlen_landingPos hb h1 h2
  have hbase := descentBase_len_pos hk hLO hL1 hL2
  have hbulge := vlen_descentBulged ht0.le ht1 hbase
  set q := descentBulged (lastOrbitPoint a) (landingPos a data) t with hq
  have hqpos : 0 < vlen q := by
    rw [hq, hbulge]
    nlinarith
  by_cases hclamp : vlen q < minRadiusAt data q
  · rw [if_pos hclamp]
    have hm : 0 < minRadiusAt data q := by linarith [(minRadiusAt_bounds hb q).1]
    have hnorm : vnormalize q = vsmul (1 / vlen q) q := if_neg hqpos.ne'
    rw [hnorm, vsmul_vsmul]
    have hk2 : 0 < minRadiusAt data q * (1 / vlen q) := by positivity
    rw [minRadiusAt_smul data hk2 hqpos.ne', vlen_smul, abs_of_pos hk2]
    field_simp

  · rw [if_neg hclamp]
    exact not_lt.mp hclamp

/-! ## Concrete evaluations at the origin missions -/

theorem getElev_none (lat lon : ℝ) : getElevationAt lat lon none = 0 := rfl

theorem minRadiusAt_none (p : Vec3) : minRadiusAt none p = 203 := by
  unfold minRadiusAt surfaceElevAt MOON_RADIUS
  rw [getElev_none]
  norm_num

theorem vlen_xaxis {r : ℝ} (hr : 0 ≤ r) : vlen ⟨r, 0, 0⟩ = r := by
  unfold vlen
  simp only
  rw [show r * r + 0 * 0 + 0 * 0 = r * r by ring]
  exact Real.sqrt_mul_self hr

theorem latLon_origin (r : ℝ) : latLonToVector3 0 0 r = ⟨r, 0, 0⟩ := by
  unfold latLonToVector3
  simp only
  rw [show (90 - (0:ℝ)) * (π / 180) = π / 2 by ring,
    show ((0:ℝ) + 180) * (π / 180) = π by ring,
    Real.sin_pi_div_two, Real.cos_pi_div_two, Real.sin_pi, Real.cos_pi]
  simp only [Vec3.mk.injEq]
  refine ⟨by ring, by ring, by ring⟩

theorem landingPos_origin (a : Artifact) (h1 : a.lat = 0) (h2 : a.lon = 0) :
    landingPos a none = ⟨200, 0, 0⟩ := by
  unfold landingPos landingElev
  rw [h1, h2, getElev_none,
    show MOON_RADIUS + 0 * 2 = (200:ℝ) by unfold MOON_RADIUS; norm_num]
  exact latLon_origin 200

theorem landingPhi_aDescent : landingPhi aDescent = π / 2 := by
  unfold landingPhi
  rw [show aDescent.lat = (0:ℝ) from rfl]
  ring

theorem landingTheta_aDescent : landingTheta aDescent = π := by
  unfold landingTheta
  rw [show aDescent.lon = (0:ℝ) from rfl]
  ring

theorem orbitInsertionPoint_aDescent : orbitInsertionPoint aDescent = ⟨-280, 0, 0⟩ := by
  unfold orbitInsertionPoint
  simp only
  rw [landingPhi_aDescent, landingTheta_aDescent, show π + π = 2 * π by ring,
    Real.sin_pi_div_two, Real.cos_pi_div_two, Real.sin_two_pi, Real.cos_two_pi]
  simp only [Vec3.mk.injEq]
  unfold MOON_RADIUS
  refine ⟨by ring, by ring, by ring⟩

theorem startAngle_aDescent : startAngle aDescent = π := by
  unfold startAngle
  rw [orbitInsertionPoint_aDescent]
  show atan2 0 (-280) = π
  unfold atan2
  rw [if_neg (by norm_num : ¬ ((0:ℝ) < -280)), if_pos (by norm_num : (-280:ℝ) < 0),
    if_pos (le_refl (0:ℝ))]
  norm_num [Real.arctan_zero]

theorem angleSpan_aDescent : angleSpan aDescent = -(π / 2) := by
  have hpi := Real.pi_pos
  unfold angleSpan
  have harg : endAngle aDescent - startAngle aDescent = -(π / 2) := by
    unfold endAngle
    rw [startAngle_aDescent, landingTheta_aDescent]
    ring
  rw [harg]
  unfold normalizeSpan
  rw [if_pos (by linarith : -(π / 2) < 0)]
  have hq : -(-(π / 2)) / (π * 2) = (1:ℝ) / 4 := by
    field_simp
    ring
  rw [hq, show ⌈(1:ℝ) / 4⌉ = (1:ℤ) by rw [Int.ceil_eq_iff]; norm_num]
  simp only [Int.cast_one]
  rw [if_neg (by linarith : ¬ (π * 2 < -(π / 2) + π * 2 * 1))]
  rw [if_pos (by linarith : π < -(π / 2) + π * 2 * 1)]
  ring

theorem lastOrbitPoint_aDescent : lastOrbitPoint aDescent = ⟨0, 0, 280⟩ := by
  unfold lastOrbitPoint orbitPointAt
  simp only
  rw [landingPhi_aDescent, startAngle_aDescent, angleSpan_aDescent,
    show ((35:ℕ):ℝ) / 35 = 1 by norm_num,
    show π / 2 + (π / 2 - π / 2) * (1 - 1) = π / 2 by ring,
    show π + -(π / 2) * 1 = π / 2 by ring,
    Real.sin_pi_div_two, Real.cos_pi_div_two]
  simp only [Vec3.mk.injEq]
  unfold MOON_RADIUS
  refine ⟨by ring, by ring, by ring⟩

theorem descentPoint40 :
    descentPointAt ⟨0, 0, 280⟩ ⟨200, 0, 0⟩ none 40 = ⟨203, 0, 0⟩ := by
  unfold descentPointAt
  simp only
  rw [show ((40:ℕ):ℝ) / 40 = 1 by norm_num]
  have hbase : descentBase ⟨0, 0, 280⟩ ⟨200, 0, 0⟩ 1 = ⟨200, 0, 0⟩ := by
    unfold descentBase
    simp only [Vec3.mk.injEq]
    refine ⟨by ring, by ring, by ring⟩
  have hb : descentBulged ⟨0, 0, 280⟩ ⟨200, 0, 0⟩ 1 = ⟨200, 0, 0⟩ := by
    unfold descentBulged
    rw [hbase, show (4:ℝ) * 1 * (1 - 1) * 30 = 0 by norm_num]
    unfold vadd vsmul
    simp only [Vec3.mk.injEq]
    refine ⟨by ring, by ring, by ring⟩
  rw [hb]
  have hlen : vlen (⟨200, 0, 0⟩ : Vec3) = 200 := vlen_xaxis (by norm_num)
  rw [minRadiusAt_none, hlen, if_pos (by norm_num : (200:ℝ) < 203)]
  have hn : vnormalize (⟨200, 0, 0⟩ : Vec3) = ⟨1, 0, 0⟩ := by
    unfold vnormalize
    rw [if_neg (by rw [hlen]; norm_num), hlen]
    unfold vsmul
    simp only [Vec3.mk.injEq]
    refine ⟨by norm_num, by norm_num, by norm_num⟩
  rw [hn]
  unfold vsmul
  simp only [Vec3.mk.injEq]
  refine ⟨by norm_num, by norm_num, by norm_num⟩

theorem descentPart_aDescent_mem : (⟨203, 0, 0⟩ : Vec3) ∈ descentPart aDescent none := by
  unfold descentPart
  rw [lastOrbitPoint_aDescent, landingPos_origin aDescent rfl rfl, List.mem_map]
  exact ⟨39, List.mem_range.mpr (by norm_num), by rw [show 39 + 1 = 40 from rfl, descentPoint40]⟩

theorem C1_descent_clearance_witness :
    minRadiusAt none ⟨203, 0, 0⟩ ≤ vlen ⟨203, 0, 0⟩ :=
  C1_descent_clearance aDescent none none_sampleBounded
    (by rw [show aDescent.lat = (0:ℝ) from rfl]; norm_num)
    (by rw [show aDescent.lat = (0:ℝ) from rfl]; norm_num)
    ⟨203, 0, 0⟩ descentPart_aDescent_mem

/-- C1 counterexample: the direct-arc trajectory of a landed mission at
`(0, 0)` with no elevation grid ends at the landing point `(200, 0, 0)`,
whose distance from center falls short of the claimed minimum-radius
shell `MOON_RADIUS + 2·sample + 3 = 203` by the full clearance 3 — far
beyond any small tolerance. -/
theorem C1_descent_clearance_cex :
    (⟨200, 0, 0⟩ : Vec3) ∈ buildTrajectory aDirect none ∧
      vlen (⟨200, 0, 0⟩ : Vec3) + 2 < minRadiusAt none ⟨200, 0, 0⟩ := by
  constructor
  · have hc1 : ¬ isCurrentlyOrbiting aDirect := by
      unfold isCurrentlyOrbiting
      decide
    have hc2 : ¬ isOrbiter aDirect := by
      unfold isOrbiter
      decide
    unfold buildTrajectory
    rw [if_neg hc1, if_neg hc2]
    have hval : quadBezier earthPosition (directControl aDirect none)
        (landingPos aDirect none) (((100:ℕ):ℝ) / 100) = ⟨200, 0, 0⟩ := by
      rw [landingPos_origin aDirect rfl rfl]
      unfold quadBezier
      simp only [Vec3.mk.injEq]
      refine ⟨by push_cast; ring, by push_cast; ring, by push_cast; ring⟩
    unfold directArcPoints
    have h100 : (100:ℕ) ∈ List.range 101 := List.mem_range.mpr (by norm_num)
    have hmem := List.mem_map_of_mem (fun i : ℕ => quadBezier earthPosition
      (directControl aDirect none) (landingPos aDirect none) ((i : ℝ) / 100)) h100
    simp only [] at hmem
    rw [hval] at hmem
    exact hmem
  · rw [minRadiusAt_none, vlen_xaxis (by norm_num : (0:ℝ) ≤ 200)]
    norm_num

/-! ## Interval certificates for the sine hash -/

theorem abs_sin_le_abs_self (t : ℝ) : |Real.sin t| ≤ |t| := by
  rcases eq_or_ne t 0 with rfl | ht
  · simp
  · exact (Real.abs_sin_lt_abs ht).le

theorem sin_dist_le (u v : ℝ) : |Real.sin u - Real.sin v| ≤ |u - v| := by
  rw [Real.sin_sub_sin, abs_mul, abs_mul]
  have h1 : |Real.sin ((u - v) / 2)| ≤ |(u - v) / 2| := abs_sin_le_abs_self _
  have h2 : |Real.cos ((u + v) / 2)| ≤ 1 := Real.abs_cos_le_one _
  have h3 : |(u - v) / 2| = |u - v| / 2 := by
    rw [abs_div]
    norm_num
  have h4 : (|2| : ℝ) = 2 := by norm_num
  rw [h4]
  calc 2 * |Real.sin ((u - v) / 2)| * |Real.cos ((u + v) / 2)| ≤
      2 * |Real.sin ((u - v) / 2)| * 1 := by
        apply mul_le_mul_of_nonneg_left h2
        positivity
  _ = 2 * |Real.sin ((u - v) / 2)| := by ring
  _ ≤ 2 * (|u - v| / 2) := by
      rw [← h3]
      linarith
  _ = |u - v| := by ring

theorem sin_taylor_start {x c e : ℝ} (hx1 : -1 ≤ x) (hx2 : x ≤ 1)
    (h1 : x ^ 4 * (5 / 96) + (x - x ^ 3 / 6 - c) ≤ e)
    (h2 : x ^ 4 * (5 / 96) - (x - x ^ 3 / 6 - c) ≤ e) :
    |Real.sin x - c| ≤ e := by
  have hx : |x| ≤ 1 := abs_le.mpr ⟨hx1, hx2⟩
  have hb := Real.sin_bound hx
  have habs : |x| ^ 4 = x ^ 4 := by
    rw [← abs_pow]
    exact abs_of_nonneg (by positivity)
  rw [habs] at hb
  obtain ⟨hb1, hb2⟩ := abs_le.mp hb
  rw [abs_le]
  constructor
  · linarith
  · linarith

theorem sin_triple_step {x c e c2 e2 : ℝ} (M : ℝ) (h : |Real.sin x - c| ≤ e)
    (hM1 : c + e ≤ M) (hM2 : -M ≤ c - e) (he : 0 ≤ e)
    (hlo : -e2 + (3 + 12 * M ^ 2) * e ≤ 3 * c - 4 * c ^ 3 - c2)
    (hhi : 3 * c - 4 * c ^ 3 - c2 ≤ e2 - (3 + 12 * M ^ 2) * e) :
    |Real.sin (3 * x) - c2| ≤ e2 := by
  obtain ⟨ha1, ha2⟩ := abs_le.mp h
  have hs1 : Real.sin x ≤ M := by linarith
  have hs2 : -M ≤ Real.sin x := by linarith
  have hc1 : c ≤ M := by linarith
  have hc2 : -M ≤ c := by linarith
  rw [Real.sin_three_mul]
  set s := Real.sin x with hset
  have hk : 3 * s - 4 * s ^ 3 - c2 =
      (s - c) * (3 - 4 * (s ^ 2 + s * c + c ^ 2)) + (3 * c - 4 * c ^ 3 - c2) := by ring
  have k1 : (0:ℝ) ≤ (M - s) * (c + M) := mul_nonneg (by linarith) (by linarith)
  have k2 : (0:ℝ) ≤ (s + M) * (M - c) := mul_nonneg (by linarith) (by linarith)
  have k3 : (0:ℝ) ≤ (M - s) * (M - c) := mul_nonneg (by linarith) (by linarith)
  have k4 : (0:ℝ) ≤ (s + M) * (c + M) := mul_nonneg (by linarith) (by linarith)
  have k5 : (0:ℝ) ≤ (M - s) * (s + M) := mul_nonneg (by linarith) (by linarith)
  have k6 : (0:ℝ) ≤ (M - c) * (c + M) := mul_nonneg (by linarith) (by linarith)
  have hsc1 : s * c ≤ M ^ 2 := by nlinarith [k1, k2]
  have hsc2 : -(M ^ 2) ≤ s * c := by nlinarith [k3, k4]
  have hss : s ^ 2 ≤ M ^ 2 := by nlinarith [k5]
  have hcc : c ^ 2 ≤ M ^ 2 := by nlinarith [k6]
  have htq : |3 - 4 * (s ^ 2 + s * c + c ^ 2)| ≤ 3 + 12 * M ^ 2 := by
    rw [abs_le]
    constructor
    · nlinarith
    · nlinarith [sq_nonneg (s + c), sq_nonneg s, sq_nonneg c, sq_nonneg M]
  have hprod : |(s - c) * (3 - 4 * (s ^ 2 + s * c + c ^ 2))| ≤ e * (3 + 12 * M ^ 2) := by
    rw [abs_mul]
    exact mul_le_mul h htq (abs_nonneg _) he
  calc |3 * s - 4 * s ^ 3 - c2|
      = |(s - c) * (3 - 4 * (s ^ 2 + s * c + c ^ 2)) + (3 * c - 4 * c ^ 3 - c2)| := by rw [hk]
  _ ≤ |(s - c) * (3 - 4 * (s ^ 2 + s * c + c ^ 2))| + |3 * c - 4 * c ^ 3 - c2| := abs_add _ _
  _ ≤ e * (3 + 12 * M ^ 2) + (e2 - (3 + 12 * M ^ 2) * e) := by
      have habs2 : |3 * c - 4 * c ^ 3 - c2| ≤ e2 - (3 + 12 * M ^ 2) * e :=
        abs_le.mpr ⟨by linarith, hhi⟩
      linarith
  _ = e2 := by ring

theorem sin_reduce_bound {C e δ E : ℝ} (A q : ℝ) (k : ℤ)
    (hsinq : |Real.sin q - C| ≤ e)
    (hdist : |A - (k : ℝ) * (2 * π) - q| ≤ δ)
    (hE : e + δ ≤ E) :
    |Real.sin A - C| ≤ E := by
  have hper : Real.sin A = Real.sin (A - (k : ℝ) * (2 * π)) := by
    have h := Real.sin_add_int_mul_two_pi (A - (k : ℝ) * (2 * π)) k
    rw [show A - (k : ℝ) * (2 * π) + (k : ℝ) * (2 * π) = A by ring] at h
    exact h
  have hlip := sin_dist_le (A - (k : ℝ) * (2 * π)) q
  have hsplit : |Real.sin A - C| ≤
      |Real.sin (A - (k : ℝ) * (2 * π)) - Real.sin q| + |Real.sin q - C| := by
    rw [hper, show Real.sin (A - (k : ℝ) * (2 * π)) - C =
      (Real.sin (A - (k : ℝ) * (2 * π)) - Real.sin q) + (Real.sin q - C) by ring]
    exact abs_add _ _
  linarith

/-- Transfer a certified sine bound at the reduced argument `q` to the
original argument `A`, where `A - q` is an exact integer multiple of twice
the 20-digit decimal approximation of `π`; the approximation error costs
`|k| · 2·10⁻²⁰`. -/
theorem sin_cert {C e E : ℝ} (A q : ℝ) (k : ℤ)
    (h : |Real.sin q - C| ≤ e)
    (hAq : A - q = (k : ℝ) * (2 * 3.14159265358979323846))
    (hE : e + |(k : ℝ)| * 0.00000000000000000002 ≤ E) :
    |Real.sin A - C| ≤ E := by
  have hpi1 : 3.14159265358979323846 < π := Real.pi_gt_d20
  have hpi2 : π < 3.14159265358979323847 := Real.pi_lt_d20
  apply sin_reduce_bound A q k h ?_ hE
  have hrw : A - (k : ℝ) * (2 * π) - q =
      (k : ℝ) * (2 * (3.14159265358979323846 - π)) := by
    linear_combination hAq
  rw [hrw, abs_mul]
  apply mul_le_mul_of_nonneg_left ?_ (abs_nonneg _)
  rw [abs_le]
  constructor
  · rw [neg_le]
    nlinarith
  · nlinarith

/-- A certified interval for `sin` at the hash argument pins down the
integer part of `n = sin(x·12.9898 + y·78.233)·43758.5453`, hence brackets
the fractional part returned by `simplex2D`. -/
theorem simplex2D_bound (x y A C E : ℝ) (m : ℤ) (lo hi : ℝ)
    (hA : x * 12.9898 + y * 78.233 = A)
    (hsin : |Real.sin A - C| ≤ E)
    (h1 : (m : ℝ) + lo ≤ (C - E) * 43758.5453)
    (h2 : (C + E) * 43758.5453 ≤ (m : ℝ) + hi)
    (h3 : 0 ≤ lo) (h4 : hi < 1) :
    lo ≤ simplex2D x y ∧ simplex2D x y ≤ hi := by
  obtain ⟨hs1, hs2⟩ := abs_le.mp hsin
  have hn1 : (C - E) * 43758.5453 ≤ Real.sin (x * 12.9898 + y * 78.233) * 43758.5453 := by
    rw [hA]
    nlinarith
  have hn2 : Real.sin (x * 12.9898 + y * 78.233) * 43758.5453 ≤ (C + E) * 43758.5453 := by
    rw [hA]
    nlinarith
  have hfl : ⌊Real.sin (x * 12.9898 + y * 78.233) * 43758.5453⌋ = m := by
    rw [Int.floor_eq_iff]
    constructor
    · linarith
    · push_cast
      linarith
  have hval : simplex2D x y =
      Real.sin (x * 12.9898 + y * 78.233) * 43758.5453 - (m : ℝ) := by
    show Real.sin (x * 12.9898 + y * 78.233) * 43758.5453 -
        (⌊Real.sin (x * 12.9898 + y * 78.233) * 43758.5453⌋ : ℝ) = _
    rw [hfl]
  constructor
  · rw [hval]
    linarith
  · rw [hval]
    linarith

theorem sin_far180 : |Real.sin ((460744623/1775000) : ℝ) - (369499365216451113694205419326994921857/400000000000000000000000000000000000000)| ≤ (8279312140147860197858693694454951/1000000000000000000000000000000000000000000000) := by
  have t0 : |Real.sin ((3485812270005594142147/11645775000000000000000000) : ℝ) - (2993199008185551950360112073090632661/10000000000000000000000000000000000000000)| ≤ (104515614054757286195363716961/250000000000000000000000000000000000000000000) :=
    sin_taylor_start (by norm_num) (by norm_num) (by norm_num) (by norm_num)
  have t1 : |Real.sin (3 * ((3485812270005594142147/11645775000000000000000000) : ℝ)) - (4489797975942544168595372199880917649/5000000000000000000000000000000000000000)| ≤ (10033502544957825977006913877/8000000000000000000000000000000000000000000) :=
    sin_triple_step (2993199008189732574923/10000000000000000000000000) t0 (by norm_num) (by norm_num) (by norm_num) (by norm_num) (by norm_num)
  have t2 : |Real.sin (3 * (3 * ((3485812270005594142147/11645775000000000000000000) : ℝ))) - (5387751778706664256687930781964224979/2000000000000000000000000000000000000000)| ≤ (470321948731492043672805166989/125000000000000000000000000000000000000000000) :=
    sin_triple_step (2244898987974407553843/2500000000000000000000000) t1 (by norm_num) (by norm_num) (by norm_num) (by norm_num) (by norm_num)
  have t3 : |Real.sin (3 * (3 * (3 * ((3485812270005594142147/11645775000000000000000000) : ℝ)))) - (10101936838228701495928687773716721069/1250000000000000000000000000000000000000)| ≤ (1128805442821236882472870251731/100000000000000000000000000000000000000000000) :=
    sin_triple_step (26938758893570947039339/10000000000000000000000000) t2 (by norm_num) (by norm_num) (by norm_num) (by norm_num) (by norm_num)
  have t4 : |Real.sin (3 * (3 * (3 * (3 * ((3485812270005594142147/11645775000000000000000000) : ℝ))))) - (121212685705779031018059522441987945259/5000000000000000000000000000000000000000)| ≤ (33873010153961172814519254437229/1000000000000000000000000000000000000000000000) :=
    sin_triple_step (2525484209560702890991/312500000000000000000000) t3 (by norm_num) (by norm_num) (by norm_num) (by norm_num) (by norm_num)
  have t5 : |Real.sin (3 * (3 * (3 * (3 * (3 * ((3485812270005594142147/11645775000000000000000000) : ℝ)))))) - (363353110041455998248609706328064695083/5000000000000000000000000000000000000000)| ≤ (101857916725441376350995679630517/1000000000000000000000000000000000000000000000) :=
    sin_triple_step (242425371411896792137659/10000000000000000000000000) t4 (by norm_num) (by norm_num) (by norm_num) (by norm_num) (by norm_num)
  have t6 : |Real.sin (3 * (3 * (3 * (3 * (3 * (3 * ((3485812270005594142147/11645775000000000000000000) : ℝ))))))) - (1082383830972527391192743607700902645921/5000000000000000000000000000000000000000)| ≤ (312028713669115222182923490612907/1000000000000000000000000000000000000000000000) :=
    sin_triple_step (363353110041965287832237/5000000000000000000000000) t5 (by norm_num) (by norm_num) (by norm_num) (by norm_num) (by norm_num)
  have t7 : |Real.sin (3 * (3 * (3 * (3 * (3 * (3 * (3 * ((3485812270005594142147/11645775000000000000000000) : ℝ)))))))) - (3044259984650080212449018403685471143313/5000000000000000000000000000000000000000)| ≤ (1111554328523770198088958096167759/1000000000000000000000000000000000000000000000) :=
    sin_triple_step (2164767661948175069522179/10000000000000000000000000) t6 (by norm_num) (by norm_num) (by norm_num) (by norm_num) (by norm_num)
  have t8 : |Real.sin (3 * (3 * (3 * (3 * (3 * (3 * (3 * (3 * ((3485812270005594142147/11645775000000000000000000) : ℝ))))))))) - (369499365216451113694205419326994921857/400000000000000000000000000000000000000)| ≤ (8279311320147860197858693694454951/1000000000000000000000000000000000000000000000) :=
    sin_triple_step (243540798772451038727331/400000000000000000000000) t7 (by norm_num) (by norm_num) (by norm_num) (by norm_num) (by norm_num)
  have hq : 3 * (3 * (3 * (3 * (3 * (3 * (3 * (3 * ((3485812270005594142147/11645775000000000000000000) : ℝ)))))))) = (3485812270005594142147/1775000000000000000000) := by norm_num
  rw [hq] at t8
  exact sin_cert (460744623/1775000) (3485812270005594142147/1775000000000000000000) 41 t8 (by norm_num) (by push_cast; norm_num)

theorem s2_far180 : ((88677750101/100000000000) : ℝ) ≤ simplex2D (-(603/355)) (18/5) ∧
    simplex2D (-(603/355)) (18/5) ≤ (110847278199/125000000000) :=
  simplex2D_bound (-(603/355)) (18/5) (460744623/1775000) (369499365216451113694205419326994921857/400000000000000000000000000000000000000) (8279312140147860197858693694454951/1000000000000000000000000000000000000000000000) 40421
    (88677750101/100000000000) (110847278199/125000000000) (by norm_num) sin_far180 (by norm_num) (by norm_num)
    (by norm_num) (by norm_num)

theorem sin_farm180 : |Real.sin ((-(539073117/1775000)) : ℝ) - (-(4289896440694161507134475299272181800087/5000000000000000000000000000000000000000))| ≤ (2443159305214890363828521361578447/200000000000000000000000000000000000000000000) := by
  have t0 : |Real.sin ((-(78036017256234003467/242620312500000000000000)) : ℝ) - (-(3216384279891912726713758677319719487/10000000000000000000000000000000000000000))| ≤ (111480913877993456671745837779/200000000000000000000000000000000000000000000) :=
    sin_taylor_start (by norm_num) (by norm_num) (by norm_num) (by norm_num)
  have t1 : |Real.sin (3 * ((-(78036017256234003467/242620312500000000000000)) : ℝ)) - (-(241228787717986909527324499084647783/250000000000000000000000000000000000000))| ≤ (1672214400140485053350828080161/1000000000000000000000000000000000000000000000) :=
    sin_triple_step (402048034987185846551/1250000000000000000000000) t0 (by norm_num) (by norm_num) (by norm_num) (by norm_num) (by norm_num)
  have t2 : |Real.sin (3 * (3 * ((-(78036017256234003467/242620312500000000000000)) : ℝ))) - (-(5789483718070846198521986370271609177/2000000000000000000000000000000000000000))| ≤ (100333237672595574307631988251/20000000000000000000000000000000000000000000) :=
    sin_triple_step (1929830301747239705019/2000000000000000000000000) t1 (by norm_num) (by norm_num) (by norm_num) (by norm_num) (by norm_num)
  have t3 : |Real.sin (3 * (3 * (3 * ((-(78036017256234003467/242620312500000000000000)) : ℝ)))) - (-(8684128550796284937348351128874892291/1000000000000000000000000000000000000000))| ≤ (7525245049070147929282909579307/500000000000000000000000000000000000000000000) :=
    sin_triple_step (28947418590404397611447/10000000000000000000000000) t2 (by norm_num) (by norm_num) (by norm_num) (by norm_num) (by norm_num)
  have t4 : |Real.sin (3 * (3 * (3 * (3 * ((-(78036017256234003467/242620312500000000000000)) : ℝ))))) - (-(130248830149130335384159851835349219319/5000000000000000000000000000000000000000))| ≤ (22582545261180709091138715166989/500000000000000000000000000000000000000000000) :=
    sin_triple_step (17368257101622670854893/2000000000000000000000000) t3 (by norm_num) (by norm_num) (by norm_num) (by norm_num) (by norm_num)
  have t5 : |Real.sin (3 * (3 * (3 * (3 * (3 * ((-(78036017256234003467/242620312500000000000000)) : ℝ)))))) - (-(780785896142340283951059440742818627047/10000000000000000000000000000000000000000))| ≤ (135863054680543598119417408453777/1000000000000000000000000000000000000000000000) :=
    sin_triple_step (32562207537339040209193/1250000000000000000000000) t4 (by norm_num) (by norm_num) (by norm_num) (by norm_num) (by norm_num)
  have t6 : |Real.sin (3 * (3 * (3 * (3 * (3 * (3 * ((-(78036017256234003467/242620312500000000000000)) : ℝ))))))) - (-(145207385868226249252684279940690064763/625000000000000000000000000000000000000))| ≤ (104382063036775984535733926976699/250000000000000000000000000000000000000000000) :=
    sin_triple_step (156157179228739782899573/2000000000000000000000000) t5 (by norm_num) (by norm_num) (by norm_num) (by norm_num) (by norm_num)
  have t7 : |Real.sin (3 * (3 * (3 * (3 * (3 * (3 * (3 * ((-(78036017256234003467/242620312500000000000000)) : ℝ)))))))) - (-(3234160783126800194349282392053931651887/5000000000000000000000000000000000000000))| ≤ (761516601995191631990340440648663/500000000000000000000000000000000000000000000) :=
    sin_triple_step (116165908694789763528221/500000000000000000000000) t6 (by norm_num) (by norm_num) (by norm_num) (by norm_num) (by norm_num)
  have t8 : |Real.sin (3 * (3 * (3 * (3 * (3 * (3 * (3 * (3 * ((-(78036017256234003467/242620312500000000000000)) : ℝ))))))))) - (-(4289896440694161507134475299272181800087/5000000000000000000000000000000000000000))| ≤ (2443159113214890363828521361578447/200000000000000000000000000000000000000000000) :=
    sin_triple_step (6468321566268830720738469/10000000000000000000000000) t7 (by norm_num) (by norm_num) (by norm_num) (by norm_num) (by norm_num)
  have hq : 3 * (3 * (3 * (3 * (3 * (3 * (3 * (3 * ((-(78036017256234003467/242620312500000000000000)) : ℝ)))))))) = (-(234108051768702010401/110937500000000000000)) := by norm_num
  rw [hq] at t8
  exact sin_cert (-(539073117/1775000)) (-(234108051768702010401/110937500000000000000)) (-48) t8 (by norm_num) (by push_cast; norm_num)

theorem s2_farm180 : ((581663911/7812500000) : ℝ) ≤ simplex2D (-(603/355)) (-(18/5)) ∧
    simplex2D (-(603/355)) (-(18/5)) ≤ (744540497/10000000000) :=
  simplex2D_bound (-(603/355)) (-(18/5)) (-(539073117/1775000)) (-(4289896440694161507134475299272181800087/5000000000000000000000000000000000000000)) (2443159305214890363828521361578447/200000000000000000000000000000000000000000000) (-37544)
    (581663911/7812500000) (744540497/10000000000) (by norm_num) sin_farm180 (by norm_num) (by norm_num)
    (by norm_num) (by norm_num)

theorem sin_noise180 : |Real.sin ((460744623/710000) : ℝ) - (9806178796459171390627544731760800124297/10000000000000000000000000000000000000000)| ≤ (4731889539960259392617691819856883/1000000000000000000000000000000000000000000000) := by
  have t0 : |Real.sin ((3138203714892102357101/11645775000000000000000000) : ℝ) - (673678582342537910925985671468270081/2500000000000000000000000000000000000000)| ≤ (137315550938423478967367320697/500000000000000000000000000000000000000000000) :=
    sin_taylor_start (by norm_num) (by norm_num) (by norm_num) (by norm_num)
  have t1 : |Real.sin (3 * ((3138203714892102357101/11645775000000000000000000) : ℝ)) - (1010517775675664186409231964421455057/1250000000000000000000000000000000000000)| ≤ (205973386234526633962435857001/250000000000000000000000000000000000000000000) :=
    sin_triple_step (2694714329372897954723/10000000000000000000000000) t0 (by norm_num) (by norm_num) (by norm_num) (by norm_num) (by norm_num)
  have t2 : |Real.sin (3 * (3 * ((3138203714892102357101/11645775000000000000000000) : ℝ))) - (24252405483183259887645406449375891947/10000000000000000000000000000000000000000)| ≤ (2471687096119218064690703197167/1000000000000000000000000000000000000000000000) :=
    sin_triple_step (2021035551353388106681/2500000000000000000000000) t1 (by norm_num) (by norm_num) (by norm_num) (by norm_num) (by norm_num)
  have t3 : |Real.sin (3 * (3 * (3 * ((3138203714892102357101/11645775000000000000000000) : ℝ)))) - (72756645859159006294891663045886244953/10000000000000000000000000000000000000000)| ≤ (7415235743741928338039226833179/1000000000000000000000000000000000000000000000) :=
    sin_triple_step (24252405483207976758607/10000000000000000000000000) t2 (by norm_num) (by norm_num) (by norm_num) (by norm_num) (by norm_num)
  have t4 : |Real.sin (3 * (3 * (3 * (3 * ((3138203714892102357101/11645775000000000000000000) : ℝ))))) - (218254531999381429529077510220509361579/10000000000000000000000000000000000000000)| ≤ (22250417563539706853422286384997/1000000000000000000000000000000000000000000000) :=
    sin_triple_step (7275664585923315865233/1000000000000000000000000) t3 (by norm_num) (by norm_num) (by norm_num) (by norm_num) (by norm_num)
  have t5 : |Real.sin (3 * (3 * (3 * (3 * (3 * ((3138203714892102357101/11645775000000000000000000) : ℝ)))))) - (163586933364305048425227023982146300663/2500000000000000000000000000000000000000)| ≤ (13375688127253861024479402775839/200000000000000000000000000000000000000000000) :=
    sin_triple_step (218254531999603933704713/10000000000000000000000000) t4 (by norm_num) (by norm_num) (by norm_num) (by norm_num) (by norm_num)
  have t6 : |Real.sin (3 * (3 * (3 * (3 * (3 * (3 * ((3138203714892102357101/11645775000000000000000000) : ℝ))))))) - (1951836292580683702326185657041165148819/10000000000000000000000000000000000000000)| ≤ (204071570614629361843204793253629/1000000000000000000000000000000000000000000000) :=
    sin_triple_step (654347733457888978107271/10000000000000000000000000) t5 (by norm_num) (by norm_num) (by norm_num) (by norm_num) (by norm_num)
  have t7 : |Real.sin (3 * (3 * (3 * (3 * (3 * (3 * (3 * ((3138203714892102357101/11645775000000000000000000) : ℝ)))))))) - (2779037594074362381450263533492603627983/5000000000000000000000000000000000000000)| ≤ (176377007030576390144201782710643/250000000000000000000000000000000000000000000) :=
    sin_triple_step (487959073145681104508083/2500000000000000000000000) t6 (by norm_num) (by norm_num) (by norm_num) (by norm_num) (by norm_num)
  have t8 : |Real.sin (3 * (3 * (3 * (3 * (3 * (3 * (3 * (3 * ((3138203714892102357101/11645775000000000000000000) : ℝ))))))))) - (9806178796459171390627544731760800124297/10000000000000000000000000000000000000000)| ≤ (4731887479960259392617691819856883/1000000000000000000000000000000000000000000000) :=
    sin_triple_step (5558075188155779843181751/10000000000000000000000000) t7 (by norm_num) (by norm_num) (by norm_num) (by norm_num) (by norm_num)
  have hq : 3 * (3 * (3 * (3 * (3 * (3 * (3 * (3 * ((3138203714892102357101/11645775000000000000000000) : ℝ)))))))) = (3138203714892102357101/1775000000000000000000) := by norm_num
  rw [hq] at t8
  exact sin_cert (460744623/710000) (3138203714892102357101/1775000000000000000000) 103 t8 (by norm_num) (by push_cast; norm_num)

theorem s2_noise180 : ((25744266797/62500000000) : ℝ) ≤ simplex2D (-(603/142)) 9 ∧
    simplex2D (-(603/142)) 9 ≤ (205954341437/500000000000) :=
  simplex2D_bound (-(603/142)) 9 (460744623/710000) (9806178796459171390627544731760800124297/10000000000000000000000000000000000000000) (4731889539960259392617691819856883/1000000000000000000000000000000000000000000000) 42910
    (25744266797/62500000000) (205954341437/500000000000) (by norm_num) sin_noise180 (by norm_num) (by norm_num)
    (by norm_num) (by norm_num)

theorem sin_noisem180 : |Real.sin ((-(539073117/710000)) : ℝ) - (4227526843707574381704640963238616038959/5000000000000000000000000000000000000000)| ≤ (287966437032831932307376721580851/1000000000000000000000000000000000000000000000) := by
  have t0 : |Real.sin ((1788331849495685580493/11645775000000000000000000) : ℝ) - (1535605696029065000690373475685727057/10000000000000000000000000000000000000000)| ≤ (28961272211227427799848664501/1000000000000000000000000000000000000000000000) :=
    sin_taylor_start (by norm_num) (by norm_num) (by norm_num) (by norm_num)
  have t1 : |Real.sin (3 * ((1788331849495685580493/11645775000000000000000000) : ℝ)) - (1151704235810913420256519965478919089/2500000000000000000000000000000000000000)| ≤ (17376764965771752948752198687/200000000000000000000000000000000000000000000) :=
    sin_triple_step (1535605696029354613413/10000000000000000000000000) t0 (by norm_num) (by norm_num) (by norm_num) (by norm_num) (by norm_num)
  have t2 : |Real.sin (3 * (3 * ((1788331849495685580493/11645775000000000000000000) : ℝ))) - (1382044691895571425248036384541492993/1000000000000000000000000000000000000000)| ≤ (260651695756348247495746294721/1000000000000000000000000000000000000000000000) :=
    sin_triple_step (184272677729780900771/400000000000000000000000) t1 (by norm_num) (by norm_num) (by norm_num) (by norm_num) (by norm_num)
  have t3 : |Real.sin (3 * (3 * (3 * ((1788331849495685580493/11645775000000000000000000) : ℝ)))) - (41461235166025116635887937428513706149/10000000000000000000000000000000000000000)| ≤ (781961061554578022318515045287/1000000000000000000000000000000000000000000000) :=
    sin_triple_step (6910223459479160384719/5000000000000000000000000) t2 (by norm_num) (by norm_num) (by norm_num) (by norm_num) (by norm_num)
  have t4 : |Real.sin (3 * (3 * (3 * (3 * ((1788331849495685580493/11645775000000000000000000) : ℝ))))) - (62190427283561205037082259247606996363/5000000000000000000000000000000000000000)| ≤ (1173022245391964743616512177713/500000000000000000000000000000000000000000000) :=
    sin_triple_step (5182654395754117030813/1250000000000000000000000) t3 (by norm_num) (by norm_num) (by norm_num) (by norm_num) (by norm_num)
  have t5 : |Real.sin (3 * (3 * (3 * (3 * (3 * ((1788331849495685580493/11645775000000000000000000) : ℝ)))))) - (186532796929215812370973601472927981061/5000000000000000000000000000000000000000)| ≤ (7042488837410279891615955832699/1000000000000000000000000000000000000000000000) :=
    sin_triple_step (124380854567145870519073/10000000000000000000000000) t4 (by norm_num) (by norm_num) (by norm_num) (by norm_num) (by norm_num)
  have t6 : |Real.sin (3 * (3 * (3 * (3 * (3 * (3 * ((1788331849495685580493/11645775000000000000000000) : ℝ))))))) - (558559940790874844251934914000405475967/5000000000000000000000000000000000000000)| ≤ (5311271400157617145941685753079/250000000000000000000000000000000000000000000) :=
    sin_triple_step (186532796929251024815161/5000000000000000000000000) t5 (by norm_num) (by norm_num) (by norm_num) (by norm_num) (by norm_num)
  have t7 : |Real.sin (3 * (3 * (3 * (3 * (3 * (3 * (3 * ((1788331849495685580493/11645775000000000000000000) : ℝ)))))))) - (3295594949307109535602634872547136414593/10000000000000000000000000000000000000000)| ≤ (66916810762956009649946909499311/1000000000000000000000000000000000000000000000) :=
    sin_triple_step (1117119881581962139359877/10000000000000000000000000) t6 (by norm_num) (by norm_num) (by norm_num) (by norm_num) (by norm_num)
  have t8 : |Real.sin (3 * (3 * (3 * (3 * (3 * (3 * (3 * (3 * ((1788331849495685580493/11645775000000000000000000) : ℝ))))))))) - (4227526843707574381704640963238616038959/5000000000000000000000000000000000000000)| ≤ (287964017032831932307376721580851/1000000000000000000000000000000000000000000000) :=
    sin_triple_step (659118989861555740742053/2000000000000000000000000) t7 (by norm_num) (by norm_num) (by norm_num) (by norm_num) (by norm_num)
  have hq : 3 * (3 * (3 * (3 * (3 * (3 * (3 * (3 * ((1788331849495685580493/11645775000000000000000000) : ℝ)))))))) = (1788331849495685580493/1775000000000000000000) := by norm_num
  rw [hq] at t8
  exact sin_cert (-(539073117/710000)) (1788331849495685580493/1775000000000000000000) (-121) t8 (by norm_num) (by push_cast; norm_num)

theorem s2_noisem180 : ((84979456181/1000000000000) : ℝ) ≤ simplex2D (-(603/142)) (-9) ∧
    simplex2D (-(603/142)) (-9) ≤ (10622435173/125000000000) :=
  simplex2D_bound (-(603/142)) (-9) (-(539073117/710000)) (4227526843707574381704640963238616038959/5000000000000000000000000000000000000000) (287966437032831932307376721580851/1000000000000000000000000000000000000000000000) 36998
    (84979456181/1000000000000) (10622435173/125000000000) (by norm_num) sin_noisem180 (by norm_num) (by norm_num)
    (by norm_num) (by norm_num)

/-! ## C3: behaviour of the elevation sample at the longitude seam -/

/-- The haversine distance in degrees dominates the latitude gap: the
`sin²(Δφ/2)` term alone already accounts for it. -/
theorem haversine_ge_dLat (lat1 lon1 lat2 lon2 : ℝ)
    (ha1 : -90 ≤ lat1) (ha2 : lat1 ≤ 90) (hb1 : -90 ≤ lat2) (hb2 : lat2 ≤ 90) :
    |lat2 - lat1| ≤ haversine lat1 lon1 lat2 lon2 := by
  have hpi := Real.pi_pos
  have hd1 : -180 ≤ lat2 - lat1 := by linarith
  have hd2 : lat2 - lat1 ≤ 180 := by linarith
  have hcos1 : 0 ≤ Real.cos (lat1 * π / 180) := by
    apply Real.cos_nonneg_of_mem_Icc
    constructor
    · nlinarith
    · nlinarith
  have hcos2 : 0 ≤ Real.cos (lat2 * π / 180) := by
    apply Real.cos_nonneg_of_mem_Icc
    constructor
    · nlinarith
    · nlinarith
  have hge : Real.sin ((lat2 - lat1) * π / 180 / 2) * Real.sin ((lat2 - lat1) * π / 180 / 2) ≤
      havA lat1 lon1 lat2 lon2 := by
    unfold havA
    nlinarith [mul_nonneg hcos1 hcos2,
      mul_self_nonneg (Real.sin ((lon2 - lon1) * π / 180 / 2))]
  have hsqrt : |Real.sin ((lat2 - lat1) * π / 180 / 2)| ≤
      Real.sqrt (havA lat1 lon1 lat2 lon2) := by
    have h := Real.sqrt_le_sqrt hge
    rwa [show Real.sin ((lat2 - lat1) * π / 180 / 2) * Real.sin ((lat2 - lat1) * π / 180 / 2) =
        Real.sin ((lat2 - lat1) * π / 180 / 2) ^ 2 by ring, Real.sqrt_sq_eq_abs] at h
  have hu2 : |(lat2 - lat1) * π / 180 / 2| ≤ π / 2 := by
    rw [abs_le]
    constructor
    · nlinarith
    · nlinarith
  have habs_sin : |Real.sin ((lat2 - lat1) * π / 180 / 2)| =
      Real.sin |(lat2 - lat1) * π / 180 / 2| := by
    rcases le_or_lt 0 ((lat2 - lat1) * π / 180 / 2) with h | h
    · rw [abs_of_nonneg h, abs_of_nonneg]
      apply Real.sin_nonneg_of_nonneg_of_le_pi h
      linarith [abs_le.mp hu2]
    · rw [abs_of_neg h, abs_of_nonpos, Real.sin_neg]
      apply le_of_lt
      apply Real.sin_neg_of_neg_of_neg_pi_lt h
      have := abs_le.mp hu2
      linarith [this.1]
  have harc : |(lat2 - lat1) * π / 180 / 2| ≤
      Real.arcsin (Real.sqrt (havA lat1 lon1 lat2 lon2)) := by
    have h2 : Real.arcsin |Real.sin ((lat2 - lat1) * π / 180 / 2)| ≤
        Real.arcsin (Real.sqrt (havA lat1 lon1 lat2 lon2)) :=
      Real.monotone_arcsin hsqrt
    have h3 : Real.arcsin |Real.sin ((lat2 - lat1) * π / 180 / 2)| =
        |(lat2 - lat1) * π / 180 / 2| := by
      rw [habs_sin]
      exact Real.arcsin_sin (by linarith [abs_nonneg ((lat2 - lat1) * π / 180 / 2)]) hu2
    linarith
  have habs_u : |(lat2 - lat1) * π / 180 / 2| = |lat2 - lat1| * (π / 360) := by
    rw [show (lat2 - lat1) * π / 180 / 2 = (lat2 - lat1) * (π / 360) by ring, abs_mul,
      abs_of_pos (show (0:ℝ) < π / 360 by positivity)]
  rw [haversine_eq_arcsin]
  rw [habs_u] at harc
  calc |lat2 - lat1| = |lat2 - lat1| * (π / 360) * (360 / π) := by
        field_simp
    _ ≤ Real.arcsin (Real.sqrt (havA lat1 lon1 lat2 lon2)) * (360 / π) :=
        mul_le_mul_of_nonneg_right harc (by positivity)
    _ = 2 * Real.arcsin (Real.sqrt (havA lat1 lon1 lat2 lon2)) * 180 / π := by
        ring

/-- The haversine intermediate `a` is invariant under replacing `lon1 = -180`
by `lon1 = 180`: the half-angle shifts by `π` and is squared. -/
theorem havA_seam (lat1 lat2 lon2 : ℝ) :
    havA lat1 (-180) lat2 lon2 = havA lat1 180 lat2 lon2 := by
  unfold havA
  rw [show (lon2 - -180) * π / 180 / 2 = (lon2 - 180) * π / 180 / 2 + π by ring,
    Real.sin_add_pi]
  ring

theorem haversine_seam (lat1 lat2 lon2 : ℝ) :
    haversine lat1 (-180) lat2 lon2 = haversine lat1 180 lat2 lon2 := by
  unfold haversine
  rw [havA_seam]

theorem mareDepth_seam (lat : ℝ) (m : Feature) :
    mareDepth lat (-180) m = mareDepth lat 180 m := by
  unfold mareDepth
  rw [haversine_seam]

theorem craterRelief_seam (lat : ℝ) (c : Feature) :
    craterRelief lat (-180) c = craterRelief lat 180 c := by
  unfold craterRelief
  rw [haversine_seam]

/-- A mare whose angular radius is smaller than its latitude gap to the
sample point contributes nothing, regardless of longitude. -/
theorem mareDepth_zero_far (lat lon : ℝ) (m : Feature)
    (ha1 : -90 ≤ lat) (ha2 : lat ≤ 90) (hb1 : -90 ≤ m.lat) (hb2 : m.lat ≤ 90)
    (h5 : m.size / 2 / 57.3 ≤ m.lat - lat) :
    mareDepth lat lon m = 0 := by
  unfold mareDepth
  rw [if_neg]
  simp only [not_lt]
  calc m.size / 2 / 57.3 ≤ m.lat - lat := h5
    _ ≤ |m.lat - lat| := le_abs_self _
    _ ≤ haversine lat lon m.lat m.lon := haversine_ge_dLat lat lon m.lat m.lon ha1 ha2 hb1 hb2

theorem craterRelief_zero_far (lat lon : ℝ) (c : Feature)
    (ha1 : -90 ≤ lat) (ha2 : lat ≤ 90) (hb1 : -90 ≤ c.lat) (hb2 : c.lat ≤ 90)
    (h5 : c.size / 2 / 111 * 2 ≤ c.lat - lat) :
    craterRelief lat lon c = 0 := by
  unfold craterRelief
  rw [if_neg]
  simp only [not_lt]
  calc c.size / 2 / 111 * 2 ≤ c.lat - lat := h5
    _ ≤ |c.lat - lat| := le_abs_self _
    _ ≤ haversine lat lon c.lat c.lon := haversine_ge_dLat lat lon c.lat c.lon ha1 ha2 hb1 hb2

/-- Every catalogued mare lies far north of grid row 2 (`lat ≈ -84.93°`),
so the maria sum vanishes there for every longitude. -/
theorem mariaSum_row2 (lon : ℝ) :
    (MARIA.map (fun m => mareDepth (latOfRow 2) lon m)).sum = 0 := by
  have h1 : -90 ≤ latOfRow 2 := by norm_num [latOfRow]
  have h2 : latOfRow 2 ≤ 90 := by norm_num [latOfRow]
  apply List.sum_eq_zero
  intro x hx
  obtain ⟨m, hm, rfl⟩ := List.mem_map.mp hx
  fin_cases hm <;>
    exact mareDepth_zero_far _ _ _ h1 h2 (by norm_num) (by norm_num) (by norm_num [latOfRow])

theorem cratersSum_row2 (lon : ℝ) :
    (CRATERS.map (fun c => craterRelief (latOfRow 2) lon c)).sum = 0 := by
  have h1 : -90 ≤ latOfRow 2 := by norm_num [latOfRow]
  have h2 : latOfRow 2 ≤ 90 := by norm_num [latOfRow]
  apply List.sum_eq_zero
  intro x hx
  obtain ⟨c, hc, rfl⟩ := List.mem_map.mp hx
  fin_cases hc <;>
    exact craterRelief_zero_far _ _ _ h1 h2 (by norm_num) (by norm_num) (by norm_num [latOfRow])

/-- The stored-value clamp is the identity on `[-8, 10]`. -/
theorem clamp_id (e : ℝ) (h1 : -8 ≤ e) (h2 : e ≤ 10) : max (-8) (min 10 e) = e := by
  rw [min_eq_right h2, max_eq_right h1]

/-- The stored-value clamp is 1-Lipschitz. -/
theorem clamp_lip (lo hi a b : ℝ) :
    |max lo (min hi a) - max lo (min hi b)| ≤ |a - b| := by
  have h1 := abs_max_sub_max_le_max lo (min hi a) lo (min hi b)
  have h2 := abs_min_sub_min_le_max hi a hi b
  have e1 : |lo - lo| = 0 := by simp
  have e2 : |hi - hi| = 0 := by simp
  rw [e1] at h1
  rw [e2] at h2
  rw [show max (0:ℝ) |min hi a - min hi b| = |min hi a - min hi b| from
    max_eq_right (abs_nonneg _)] at h1
  rw [show max (0:ℝ) |a - b| = |a - b| from max_eq_right (abs_nonneg _)] at h2
  linarith

/-- `simplex2D` always returns a fractional part: a value in `[0, 1)`. -/
theorem simplex2D_mem (x y : ℝ) : 0 ≤ simplex2D x y ∧ simplex2D x y < 1 := by
  have h : simplex2D x y =
      Int.fract (Real.sin (x * 12.9898 + y * 78.233) * 43758.5453) := rfl
  rw [h]
  exact ⟨Int.fract_nonneg _, Int.fract_lt_one _⟩

/-- Pre-clamp elevations at the two seam longitudes differ only in the two
noise terms, each worth less than `1.5` resp. `0.5`. -/
theorem elevRaw_seam_diff (lat : ℝ) :
    |elevRaw MARIA CRATERS lat 180 - elevRaw MARIA CRATERS lat (-180)| ≤ 2 := by
  have habs1 : |(180:ℝ)| = 180 := abs_of_nonneg (by norm_num)
  have habs2 : |(-180:ℝ)| = 180 := by
    rw [abs_neg]
    exact abs_of_nonneg (by norm_num)
  have hmare : (MARIA.map (fun m => mareDepth lat (-180) m)).sum =
      (MARIA.map (fun m => mareDepth lat 180 m)).sum := by
    simp only [mareDepth_seam]
  have hcrater : (CRATERS.map (fun c => craterRelief lat (-180) c)).sum =
      (CRATERS.map (fun c => craterRelief lat 180 c)).sum := by
    simp only [craterRelief_seam]
  obtain ⟨ha1, hb1⟩ := simplex2D_mem (lat * 0.02) ((180:ℝ) * 0.02)
  obtain ⟨ha2, hb2⟩ := simplex2D_mem (lat * 0.02) ((-180:ℝ) * 0.02)
  obtain ⟨ha3, hb3⟩ := simplex2D_mem (lat * 0.05) ((180:ℝ) * 0.05)
  obtain ⟨ha4, hb4⟩ := simplex2D_mem (lat * 0.05) ((-180:ℝ) * 0.05)
  unfold elevRaw
  simp only [habs1, habs2, if_pos (show (90:ℝ) < 180 by norm_num)]
  rw [hmare, hcrater]
  rcases lt_or_le 60 |lat| with hl | hl
  · simp only [if_pos hl]
    rw [abs_le]
    constructor <;> linarith
  · simp only [if_neg (not_lt.mpr hl)]
    rw [abs_le]
    constructor <;> linarith

/-- Cells in the same row at the two seam columns differ by at most twice
the unit-conversion factor. -/
theorem cell_seam (i : ℕ) :
    |moonGrid.val i 143 - moonGrid.val i 0| ≤ 2 * (MOON_RADIUS / MOON_RADIUS_KM) := by
  have h143 : lonOfCol 143 = 180 := by norm_num [lonOfCol]
  have h0 : lonOfCol 0 = -180 := by norm_num [lonOfCol]
  have hs : (0:ℝ) < MOON_RADIUS / MOON_RADIUS_KM := by
    norm_num [MOON_RADIUS, MOON_RADIUS_KM]
  have hval : ∀ j : ℕ, moonGrid.val i j =
      max (-8) (min 10 (elevRaw MARIA CRATERS (latOfRow i) (lonOfCol j))) *
        (MOON_RADIUS / MOON_RADIUS_KM) := fun j => rfl
  rw [hval 143, hval 0, h143, h0, ← sub_mul, abs_mul, abs_of_pos hs]
  have hlip := clamp_lip (-8) 10 (elevRaw MARIA CRATERS (latOfRow i) 180)
    (elevRaw MARIA CRATERS (latOfRow i) (-180))
  have hdiff := elevRaw_seam_diff (latOfRow i)
  exact mul_le_mul_of_nonneg_right (le_trans hlip hdiff) hs.le

/-- A convex combination of two pairs each within `s` of each other stays
within `s`. -/
theorem seam_combo (w a b c d s : ℝ) (hw0 : 0 ≤ w) (hw1 : w ≤ 1)
    (h1 : |a - b| ≤ s) (h2 : |c - d| ≤ s) :
    |((1 - w) * a + w * c) - ((1 - w) * b + w * d)| ≤ s := by
  obtain ⟨h1l, h1u⟩ := abs_le.mp h1
  obtain ⟨h2l, h2u⟩ := abs_le.mp h2
  rw [abs_le]
  constructor <;>
    nlinarith [mul_nonneg (by linarith : (0:ℝ) ≤ 1 - w) (by linarith : 0 ≤ s - (a - b)),
      mul_nonneg (by linarith : (0:ℝ) ≤ 1 - w) (by linarith : 0 ≤ a - b + s),
      mul_nonneg hw0 (by linarith : 0 ≤ s - (c - d)),
      mul_nonneg hw0 (by linarith : 0 ≤ c - d + s)]

/-- C3 (amended): for every latitude in `[-90, 90]`, sampling the built
grid at the seam longitudes `180` and `-180` differs by at most
`2·(MOON_RADIUS/MOON_RADIUS_KM)` — the combined amplitude of the two
non-periodic noise terms after unit conversion (≈ 0.23 scene units); the
original claim of seam continuity within a *small* tolerance fails, see
the counterexample. -/
theorem C3_longitude_seam (lat : ℝ) (h1 : -90 ≤ lat) (h2 : lat ≤ 90) :
    |getElevationAt lat 180 (some moonGrid) - getElevationAt lat (-180) (some moonGrid)| ≤
      2 * (MOON_RADIUS / MOON_RADIUS_KM) := by
  obtain ⟨_, hy0, hy1⟩ := @gridFi_fract moonGrid lat h1 h2 (by norm_num [moonGrid_res])
  have hw180 : wrapLon 180 = 180 := wrapLon_eq_self (by norm_num) (by norm_num)
  have hwm : wrapLon (-180) = -180 := wrapLon_eq_self (by norm_num) (by norm_num)
  have hfj1 : gridFj moonGrid 180 = 143 := by
    unfold gridFj
    rw [hw180]
    simp only [moonGrid_res]
    norm_num
  have hfj0 : gridFj moonGrid (-180) = 0 := by
    unfold gridFj
    rw [hwm]
    norm_num
  have hJ1 : gridJ0 moonGrid 180 = ((143 : ℕ) : ℤ) := by
    unfold gridJ0
    rw [hfj1]
    simp only [moonGrid_res]
    norm_num
  have hJ0 : gridJ0 moonGrid (-180) = 0 := by
    unfold gridJ0
    rw [hfj0]
    simp only [moonGrid_res]
    norm_num
  have hfx1 : gridFj moonGrid 180 - (gridJ0 moonGrid 180 : ℝ) = 0 := by
    rw [hfj1, hJ1]
    norm_num
  have hfx0 : gridFj moonGrid (-180) - (gridJ0 moonGrid (-180) : ℝ) = 0 := by
    rw [hfj0, hJ0]
    norm_num
  have hX : sampleGrid moonGrid lat 180 =
      (1 - (gridFi moonGrid lat - (gridI0 moonGrid lat : ℝ))) *
          moonGrid.val (gridI0 moonGrid lat).toNat 143 +
        (gridFi moonGrid lat - (gridI0 moonGrid lat : ℝ)) *
          moonGrid.val (gridI1 moonGrid lat).toNat 143 := by
    unfold sampleGrid
    rw [hfx1, hJ1]
    simp only [Int.toNat_natCast]
    ring
  have hY : sampleGrid moonGrid lat (-180) =
      (1 - (gridFi moonGrid lat - (gridI0 moonGrid lat : ℝ))) *
          moonGrid.val (gridI0 moonGrid lat).toNat 0 +
        (gridFi moonGrid lat - (gridI0 moonGrid lat : ℝ)) *
          moonGrid.val (gridI1 moonGrid lat).toNat 0 := by
    unfold sampleGrid
    rw [hfx0, hJ0]
    simp only [Int.toNat_zero]
    ring
  show |sampleGrid moonGrid lat 180 - sampleGrid moonGrid lat (-180)| ≤ _
  rw [hX, hY]
  exact seam_combo _ _ _ _ _ _ hy0 hy1 (cell_seam _) (cell_seam _)

theorem C3_longitude_seam_witness :
    (-90 : ℝ) ≤ 0 ∧ (0 : ℝ) ≤ 90 ∧
      |getElevationAt 0 180 (some moonGrid) - getElevationAt 0 (-180) (some moonGrid)| ≤
        2 * (MOON_RADIUS / MOON_RADIUS_KM) :=
  ⟨by norm_num, by norm_num, C3_longitude_seam 0 (by norm_num) (by norm_num)⟩

/-- The value of row 2 of `elevRaw` as a closed form in the two noise
terms, once the feature sums are known to vanish. -/
theorem elevRaw_row2 (lon : ℝ) (hlon : 90 < |lon|)
    (hm : (MARIA.map (fun m => mareDepth (latOfRow 2) lon m)).sum = 0)
    (hc : (CRATERS.map (fun c => craterRelief (latOfRow 2) lon c)).sum = 0) :
    elevRaw MARIA CRATERS (latOfRow 2) lon =
      467 / 71 - 1 / 4 + simplex2D (latOfRow 2 * 0.02) (lon * 0.02) * 1.5 +
        simplex2D (latOfRow 2 * 0.05) (lon * 0.05) * 0.5 := by
  have habs : |latOfRow 2| = 6030 / 71 := by
    rw [show latOfRow 2 = -(6030 / 71) by norm_num [latOfRow], abs_neg,
      abs_of_nonneg (show (0:ℝ) ≤ 6030 / 71 by norm_num)]
  unfold elevRaw
  rw [hm, hc]
  simp only [if_pos hlon, habs, if_pos (show (60:ℝ) < 6030 / 71 by norm_num)]
  ring_nf

/-- Counterexample to the original C3: at the latitude of grid row 2
(≈ -84.93°) the seam samples differ by more than `0.1` scene units —
the sine-hash noise is not longitude-periodic, so the seam jumps by a
fixed fraction of the noise amplitude. -/
theorem C3_longitude_seam_cex :
    getElevationAt (latOfRow 2) (-180) (some moonGrid) + 1 / 10 <
      getElevationAt (latOfRow 2) 180 (some moonGrid) := by
  have h143 : lonOfCol 143 = 180 := by norm_num [lonOfCol]
  have h0 : lonOfCol 0 = -180 := by norm_num [lonOfCol]
  have hv143 : getElevationAt (latOfRow 2) 180 (some moonGrid) = moonGrid.val 2 143 := by
    have h := sampleGrid_cell moonGrid rfl 2 143 (by norm_num) (by norm_num)
    rw [h143] at h
    exact h
  have hv0 : getElevationAt (latOfRow 2) (-180) (some moonGrid) = moonGrid.val 2 0 := by
    have h := sampleGrid_cell moonGrid rfl 2 0 (by norm_num) (by norm_num)
    rw [h0] at h
    exact h
  have hval : ∀ j : ℕ, moonGrid.val 2 j =
      max (-8) (min 10 (elevRaw MARIA CRATERS (latOfRow 2) (lonOfCol j))) *
        (MOON_RADIUS / MOON_RADIUS_KM) := fun j => rfl
  have habs180 : (90:ℝ) < |(180:ℝ)| := by
    rw [abs_of_nonneg (by norm_num : (0:ℝ) ≤ 180)]
    norm_num
  have habsm180 : (90:ℝ) < |(-180:ℝ)| := by
    rw [abs_neg, abs_of_nonneg (by norm_num : (0:ℝ) ≤ 180)]
    norm_num
  have hx2 : latOfRow 2 * 0.02 = -(603 / 355) := by norm_num [latOfRow]
  have hx5 : latOfRow 2 * 0.05 = -(603 / 142) := by norm_num [latOfRow]
  have hy2 : (180:ℝ) * 0.02 = 18 / 5 := by norm_num
  have hy5 : (180:ℝ) * 0.05 = 9 := by norm_num
  have hy2m : (-180:ℝ) * 0.02 = -(18 / 5) := by norm_num
  have hy5m : (-180:ℝ) * 0.05 = -9 := by norm_num
  have he180 := elevRaw_row2 180 habs180 (mariaSum_row2 180) (cratersSum_row2 180)
  have hem180 := elevRaw_row2 (-180) habsm180 (mariaSum_row2 (-180)) (cratersSum_row2 (-180))
  rw [hx2, hx5, hy2, hy5] at he180
  rw [hx2, hx5, hy2m, hy5m] at hem180
  obtain ⟨l1, u1⟩ := s2_far180
  obtain ⟨l2, u2⟩ := s2_farm180
  obtain ⟨l3, u3⟩ := s2_noise180
  obtain ⟨l4, u4⟩ := s2_noisem180
  have hb1l : (-8:ℝ) ≤ 467 / 71 - 1 / 4 + simplex2D (-(603 / 355)) (18 / 5) * 1.5 +
      simplex2D (-(603 / 142)) 9 * 0.5 := by linarith
  have hb1u : 467 / 71 - 1 / 4 + simplex2D (-(603 / 355)) (18 / 5) * 1.5 +
      simplex2D (-(603 / 142)) 9 * 0.5 ≤ 10 := by linarith
  have hb0l : (-8:ℝ) ≤ 467 / 71 - 1 / 4 + simplex2D (-(603 / 355)) (-(18 / 5)) * 1.5 +
      simplex2D (-(603 / 142)) (-9) * 0.5 := by linarith
  have hb0u : 467 / 71 - 1 / 4 + simplex2D (-(603 / 355)) (-(18 / 5)) * 1.5 +
      simplex2D (-(603 / 142)) (-9) * 0.5 ≤ 10 := by linarith
  have hsval : MOON_RADIUS / MOON_RADIUS_KM = 1000 / 8687 := by
    norm_num [MOON_RADIUS, MOON_RADIUS_KM]
  rw [hv143, hv0, hval 143, hval 0, h143, h0, he180, hem180,
    clamp_id _ hb1l hb1u, clamp_id _ hb0l hb0u, hsval]
  linarith

end Moon
